import Mathlib

/-!
Verification of the Agent Reasoning Engine of the WhatsApp LLM chatbot
(`f/development/2_whatsapp_llm_processing.py`): a shallow embedding of the
orchestrator (`main`), the knowledge retriever, the Gemini parameter
sanitizer, the tool executor and the two provider agent loops, together with
proofs of the specified properties.
-/

set_option maxHeartbeats 1000000

namespace LLMChatbot

/-- JSON values, mirroring the Python dict/list/scalar payloads that flow
through the reasoning engine (tool parameters, tool results, usage blobs). -/
inductive Json where
  | null
  | bool (b : Bool)
  | num (n : Int)
  | str (s : String)
  | arr (items : List Json)
  | obj (fields : List (String × Json))
  deriving Inhabited

/-- Membership test `k in d` for a Python dict, over an association-list object body. -/
def Json.hasKey (fields : List (String × Json)) (k : String) : Bool :=
  fields.any (fun kv => kv.1 == k)

/-- Dictionary access `d.get(k)` — `null` models the Python `None` default. -/
def Json.get (j : Json) (k : String) : Json :=
  match j with
  | .obj fields =>
    match fields.find? (fun kv => kv.1 == k) with
    | some kv => kv.2
    | none => .null
  | _ => .null

/-- Python truthiness of a JSON value. -/
def Json.truthy : Json → Bool
  | .null => false
  | .bool b => b
  | .num n => n != 0
  | .str s => s != ""
  | .arr l => !l.isEmpty
  | .obj f => !f.isEmpty

/-- Is the value a JSON object (a Python dict)? -/
def Json.isObj : Json → Bool
  | .obj _ => true
  | _ => false

/-- Python type name of a JSON value, as it appears in the message of an
`AttributeError` raised by an attribute access on it. -/
def pyTypeName : Json → String
  | .null => "NoneType"
  | .bool _ => "bool"
  | .num _ => "int"
  | .str _ => "str"
  | .arr _ => "list"
  | .obj _ => "dict"

/-- Key normalization `key.lower().replace("_", "")` from `sanitize_gemini_parameters`
(character-wise lowering, which agrees with the Python `str.lower` on ASCII
keys). -/
def normalizeKey (k : String) : String :=
  ((k.data.map Char.toLower).filter (fun c => c ≠ '_')).asString

/-- The `valid_fields` whitelist of `sanitize_gemini_parameters`. -/
def valid_fields : List String :=
  ["type", "properties", "required", "description",
   "enum", "items", "minimum", "maximum", "minLength",
   "maxLength", "pattern", "format", "default"]

/-- Normalized key names stripped at every level
(`{"additionalproperties", "additionalitems"}`). -/
def bannedKeyNorms : List String := ["additionalproperties", "additionalitems"]

mutual

/-- The body of the `clean_dict` inner helper of `sanitize_gemini_parameters`,
acting on the field list of a dict.  A field is dropped when its normalized
key is banned; a non-whitelisted key is kept (recursively cleaned) only when
its value is a dict containing a `"type"` key (the `elif key in valid_fields`
arm of that branch is unreachable, since the branch requires
`key not in valid_fields`); a whitelisted key is kept, recursing into dict
values and into dict items of list values. -/
def cleanFields : List (String × Json) → List (String × Json)
  | [] => []
  | (k, v) :: rest =>
    if bannedKeyNorms.contains (normalizeKey k) then
      cleanFields rest
    else if !valid_fields.contains k && k != "properties" then
      match v with
      | .obj vf =>
        if Json.hasKey vf "type" then (k, .obj (cleanFields vf)) :: cleanFields rest
        else cleanFields rest
      | _ => cleanFields rest
    else
      match v with
      | .obj vf => (k, .obj (cleanFields vf)) :: cleanFields rest
      | .arr items => (k, .arr (cleanItems items)) :: cleanFields rest
      | _ => (k, v) :: cleanFields rest

/-- List cleaning `[clean_dict(item) if isinstance(item, dict) else item for item in value]`:
only dict items of a list are cleaned; any other item (including a nested
list) is kept verbatim. -/
def cleanItems : List Json → List Json
  | [] => []
  | item :: rest =>
    (match item with
     | .obj f => Json.obj (cleanFields f)
     | _ => item) :: cleanItems rest

end

/-- Function `clean_dict`: non-dicts are returned unchanged. -/
def clean_dict : Json → Json
  | .obj fields => .obj (cleanFields fields)
  | j => j

/-- Function `sanitize_gemini_parameters(params)`: falsy or non-dict input yields the
minimal `{"type": "object", "properties": {}}` schema; otherwise the input is
cleaned and the `"type"` / `"properties"` keys are added when missing. -/
def sanitize_gemini_parameters (params : Json) : Json :=
  match params with
  | .obj fields =>
    if fields.isEmpty then .obj [("type", .str "object"), ("properties", .obj [])]
    else
      let cleaned := cleanFields fields
      let withType :=
        if Json.hasKey cleaned "type" then cleaned
        else cleaned ++ [("type", .str "object")]
      let withProps :=
        if Json.hasKey withType "properties" then withType
        else withType ++ [("properties", .obj [])]
      .obj withProps
  | _ => .obj [("type", .str "object"), ("properties", .obj [])]

mutual

/-- Claim-side predicate: `true` iff no key anywhere in the value —
descending through every object and every level of array nesting — has a
normalized form equal to `additionalproperties` or `additionalitems`. -/
def bannedFreeFull : Json → Bool
  | .obj fs => bannedFreeFields fs
  | .arr items => bannedFreeItems items
  | _ => true

def bannedFreeFields : List (String × Json) → Bool
  | [] => true
  | (k, v) :: rest =>
    !bannedKeyNorms.contains (normalizeKey k) && bannedFreeFull v && bannedFreeFields rest

def bannedFreeItems : List Json → Bool
  | [] => true
  | j :: rest => bannedFreeFull j && bannedFreeItems rest

end

mutual

/-- Amended claim-side predicate: no banned key in any object reachable
through object values and through object items sitting directly inside an
array value; objects buried below a second level of array nesting are not
inspected, matching what the cleaner actually visits. -/
def sanCleanFields : List (String × Json) → Bool
  | [] => true
  | (k, v) :: rest =>
    !bannedKeyNorms.contains (normalizeKey k) && sanCleanVal v && sanCleanFields rest

def sanCleanVal : Json → Bool
  | .obj fs => sanCleanFields fs
  | .arr items => sanCleanItems items
  | _ => true

def sanCleanItems : List Json → Bool
  | [] => true
  | j :: rest =>
    (match j with
     | .obj fs => sanCleanFields fs
     | _ => true) && sanCleanItems rest

end

/-- Outcome of an effectful call: a normal return, or a raised exception
identified by its message string (`str(e)`). -/
inductive Outcome (α : Type) where
  | ok (a : α)
  | exn (msg : String)

/-- Outcome of the HTTP POST inside `execute_mcp_tool`: a parsed JSON body,
a `requests.Timeout`, another `requests.RequestException`, or an exception
of any other class (which propagates out of `execute_mcp_tool` and is caught
by `execute_tool`). -/
inductive HttpOutcome where
  | ok (body : Json)
  | timeout
  | requestError (msg : String)
  | otherExn (msg : String)

/-- One row returned by the `search_knowledge_base` SQL function. -/
structure Chunk where
  content : String
  source_name : String
  similarity : Rat
  metadata : Json

/-- Externally visible calls made during a run (the audit trail used to state
"no network call happened" and "which credential was used"). -/
inductive Effect where
  | embeddingCall (apiKey : String) (query : String)
  | mcpPost (endpoint : String) (payload : List (String × Json))
  | windmillRun (scriptPath : String) (args : List (String × Json))
  | providerCall (provider : String)

/-- One tool call of a chat-completions response
(`choice.message.tool_calls[i]`); `arguments` is the parsed JSON argument
object, `none` modelling a `json.JSONDecodeError`. -/
structure OAToolCall where
  id : String
  name : String
  arguments : Option (List (String × Json))

/-- One chat-completions response (`response.choices[0]` plus usage). -/
structure OAResponse where
  prompt_tokens : Nat
  completion_tokens : Nat
  finish_reason : String
  content : Option String
  tool_calls : List OAToolCall

/-- Chat-completions conversation entries: plain role/content dicts, the
assistant message carrying tool calls appended verbatim, and tool-result
messages (`role="tool"` with the JSON-encoded tool result). -/
inductive OAMessage where
  | raw (role : String) (content : String)
  | assistantToolCalls (content : Option String) (tool_calls : List OAToolCall)
  | toolResult (tool_call_id : String) (name : String) (result : Json)

/-- One Gemini function call (`part.function_call`); `args` is the dict of
call arguments, `none` modelling an absent/empty `fc.args`. -/
structure GFunctionCall where
  name : String
  args : Option (List (String × Json))

/-- One Gemini `generate_content` response: optional usage metadata
(`prompt_token_count`, `candidates_token_count`), the function-call parts of
the first candidate, and `response.text`. -/
structure GResponse where
  usage : Option (Nat × Nat)
  function_calls : List GFunctionCall
  text : Option String

/-- Gemini conversation entries: plain text contents, the candidate content of the model
content appended back (carrying its function calls and any text), and the
`role="function"` content holding function responses. -/
inductive GContent where
  | textContent (role : String) (text : String)
  | modelContent (function_calls : List GFunctionCall) (text : Option String)
  | functionResults (results : List (String × Json))

/-- A Gemini `FunctionDeclaration` built from a tool definition. -/
structure GFuncDecl where
  name : String
  description : String
  parameters : Json

/-- Metadata block `_metadata` of a prepared tool definition. -/
structure ToolMeta where
  tool_type : String
  mcp_server_url : Option String
  script_path : Option String
  integration_id : Option String

/-- One prepared tool definition (OpenAI function-calling format).  Every
entry produced by `prepare_tool_definitions` — and the built-in RAG search
tool — carries a `function` block (name, description, parameters); the
built-in tool has no `_metadata` key (`metadata = none`). -/
structure ToolDef where
  name : String
  description : String
  parameters : Json
  metadata : Option ToolMeta

/-- One row of the `tools` list of the context payload
(`chatbot_integrations` record), with the dict accesses of
`prepare_tool_definitions` / `build_tool_instructions` pre-resolved into
optional fields. -/
structure ToolRecord where
  enabled : Bool
  provider : String
  name : Option String
  description : Option String
  parameters : Option Json
  config_description : Option String
  config_llm_instructions : Option String
  config_parameters : Option Json
  config_server_url : Option String
  settings_script_path : Option String
  integration_id : Option String
  id : Option String

/-- The environment of external services: each field gives the outcome of
one kind of external call.  Exceptions are injected through `Outcome.exn` /
`HttpOutcome`. -/
structure Env where
  embedSearch : String → String → String → String → Outcome (List Chunk)
  http : String → List (String × Json) → HttpOutcome
  windmill : String → List (String × Json) → Outcome Json
  openaiChat : List OAMessage → List ToolDef → Outcome OAResponse
  geminiGen : List GContent → List GFuncDecl → Outcome GResponse

/-- One completed tool call (`tool_executions` entry). -/
structure ToolExecutionRecord where
  tool_name : String
  arguments : List (String × Json)
  result : Json
  status : String
  iteration : Nat

/-- A `usage_info` dict; `none` in an optional field models an absent key. -/
structure UsageInfo where
  provider : String := ""
  model : Option String := none
  tokens_input : Option Nat := none
  tokens_output : Option Nat := none
  tool_calls : Option Nat := none
  iterations : Option Nat := none
  finish_reason : Option String := none
  error : Option String := none
  is_limit_error : Option Bool := none
  max_iterations_reached : Option Bool := none
  rag_used : Option Bool := none
  chunks_retrieved : Option Nat := none

/-- Result dict of the two agent loops. -/
structure AgentLoopResult where
  reply_text : Option String
  tool_executions : List ToolExecutionRecord
  usage_info : UsageInfo

/-- One `retrieved_sources` entry of the final envelope. -/
structure SourceEntry where
  source_name : String
  similarity : Rat
  metadata : Json

/-- The dict returned by `main`; `none` models an absent key (the early
returns carry only a subset of the keys). -/
structure MainResult where
  error : Option String := none
  reply_text : Option String := none
  should_notify_admin : Option Bool := none
  updated_variables : Option Json := none
  usage_info : Option UsageInfo := none
  tool_executions : Option (List ToolExecutionRecord) := none
  retrieved_sources : Option (List SourceEntry) := none

/-- Chatbot configuration row (the dict accesses of `main` pre-resolved;
`rag_enabled` is the truthiness of `chatbot.get("rag_config", {}).get("enabled")`). -/
structure Chatbot where
  id : String
  model_name : Option String
  system_prompt : Option String
  persona : Option String
  temperature : Option Rat
  rag_enabled : Bool
  fallback_message_error : Option String
  fallback_message_limit : Option String

/-- End-user record of the context payload (`user_variables` models the
`variables` key, whose Python name is a reserved word here). -/
structure UserRecord where
  id : Option String
  phone : Option String
  name : Option String
  user_variables : Json

/-- One prior message of the conversation history. -/
structure HistoryMsg where
  role : String
  content : Option String

/-- The Step-1 context payload consumed by `main`. -/
structure ContextPayload where
  proceed : Bool
  reason : Option String
  notify_admin : Bool
  chatbot : Chatbot
  user : UserRecord
  history : List HistoryMsg
  tools : List ToolRecord

/-- Character-wise ASCII lowering, matching Python `str.lower` on the ASCII
strings handled here. -/
def pyLower (s : String) : String := (s.data.map Char.toLower).asString

/-- Does the character list start with the given pattern? -/
def startsWithChars : List Char → List Char → Bool
  | _, [] => true
  | [], _ :: _ => false
  | c :: cs, d :: ds => c == d && startsWithChars cs ds

/-- Does some suffix of the haystack start with the pattern? -/
def containsSubChars (sub : List Char) : List Char → Bool
  | [] => startsWithChars [] sub
  | c :: rest => startsWithChars (c :: rest) sub || containsSubChars sub rest

/-- Python substring containment `sub in s`. -/
def strContains (s sub : String) : Bool := containsSubChars sub.data s.data

/-- The quota/limit keywords of the error classifier. -/
def limitKeywords : List String := ["quota", "limit", "rate", "exhausted", "429"]

/-- Quota classifier `any(keyword in error_str for keyword in [...])` over the lower-cased
exception message. -/
def isLimitErrorMsg (msg : String) : Bool :=
  limitKeywords.any (fun kw => strContains (pyLower msg) kw)

/-- Token estimator `flow_utils.estimate_tokens`: `max(len(text) // 4, 1)`. -/
def estimate_tokens (text : String) : Nat := max (text.length / 4) 1

/-- Python f-string rendering of an optional string (`None` prints `None`). -/
def pyStr : Option String → String
  | some s => s
  | none => "None"

/-- Python `x or default` for an optional string (`None` and `""` are both
falsy). -/
def pyOrStr (x : Option String) (dflt : String) : String :=
  match x with
  | some s => if s == "" then dflt else s
  | none => dflt

/-- Percentage rendering `f"{x:.0%}"` with no decimals.  (Rendering helper for prompt
and result strings; the exact rounding mode at half-way points is not the
subject of any claim.) -/
def pctFormat (q : Rat) : String := toString (round (q * 100) : ℤ) ++ "%"

/-- Implements `url.rstrip("/")`. -/
def rstripSlashes (s : String) : String :=
  (s.data.reverse.dropWhile (fun c => c == '/')).reverse.asString

/-- Payload merge `{**arguments, "chatbot_id": chatbot_id}`: the injected tenant id
overrides any caller-supplied value of that key. -/
def withChatbotId (args : List (String × Json)) (cid : String) : List (String × Json) :=
  args.filter (fun kv => kv.1 != "chatbot_id") ++ [("chatbot_id", Json.str cid)]

/-- Argument lookup `arguments.get("query", "")` as the string handed to the retriever (the
built-in tool declares `query` as a string parameter). -/
def queryArg (args : List (String × Json)) : String :=
  match args.find? (fun kv => kv.1 == "query") with
  | some (_, Json.str s) => s
  | _ => ""

/-- Status computation `"success" if not tool_result.get("error") else "failed"`:
on a dict it inspects the `error` key, but on any other value the attribute
access `tool_result.get` raises `AttributeError` (modelled as `Outcome.exn`
carrying the Python message), which the per-iteration `except` arm of the
enclosing agent loop catches. -/
def resultStatus : Json → Outcome String
  | .obj fs =>
    .ok (if ((Json.obj fs).get "error").truthy then "failed" else "success")
  | j => .exn ("\x27" ++ pyTypeName j ++ "\x27 object has no attribute \x27get\x27")

/-- Environment condition under which the status computation of the agent
loops cannot raise: every 2xx MCP response body parses to a JSON object (a
Python dict).  The MCP execution path returns such a body verbatim; every
other execution path of the tool executor already returns a dict. -/
def dictHttpBodies (env : Env) : Prop :=
  ∀ u p, (match env.http u p with
    | HttpOutcome.ok j => j.isObj = true
    | _ => True)

/-- Function `retrieve_knowledge`: returns `[]` without any call when the embeddings
credential is empty; otherwise embeds the query and searches the vector
store, returning `[]` on any exception.  The second component of the pair is the
trace of external calls made. -/
def retrieve_knowledge (env : Env) (chatbot_id query openai_api_key db_resource : String) :
    List Chunk × List Effect :=
  if openai_api_key == "" then ([], [])
  else
    match env.embedSearch chatbot_id query openai_api_key db_resource with
    | .ok chunks => (chunks, [.embeddingCall openai_api_key query])
    | .exn _ => ([], [.embeddingCall openai_api_key query])

/-- Function `execute_rag_search`: formats retrieved chunks for the model; an empty
retrieval (including the silently absorbed retrieval failure) yields a
`success`/`results: []`/`message` dict.  Its own `except` arm
(`{"error": "RAG search failed: ..."}`) guards dict accesses that cannot
fail in this model, so it is unreachable here. -/
def execute_rag_search (env : Env) (chatbot_id query openai_api_key db_resource : String) :
    Json × List Effect :=
  let r := retrieve_knowledge env chatbot_id query openai_api_key db_resource
  if r.1.isEmpty then
    (Json.obj [("success", Json.bool true), ("results", Json.arr []),
      ("message", Json.str "No relevant information found in knowledge base.")], r.2)
  else
    let formatted := r.1.map (fun c => Json.obj
      [("content", Json.str c.content), ("source", Json.str c.source_name),
       ("relevance", Json.str (pctFormat c.similarity)), ("metadata", c.metadata)])
    (Json.obj [("success", Json.bool true), ("results", Json.arr formatted),
      ("count", Json.num formatted.length)], r.2)

/-- Function `execute_mcp_tool`: POSTs the arguments (with the tenant id injected) to
`<server>/tools/<name>`; `Timeout` and `RequestException` are converted to
error dicts locally, any other exception propagates (`Outcome.exn`). -/
def execute_mcp_tool (env : Env) (tool_name : String) (metadata : ToolMeta)
    (arguments : List (String × Json)) (chatbot_id : String) :
    Outcome Json × List Effect :=
  match metadata.mcp_server_url with
  | none => (.ok (Json.obj [("error", Json.str "MCP server URL not configured")]), [])
  | some url =>
    let endpoint := rstripSlashes url ++ "/tools/" ++ tool_name
    let payload := withChatbotId arguments chatbot_id
    match env.http endpoint payload with
    | .ok body => (.ok body, [.mcpPost endpoint payload])
    | .timeout => (.ok (Json.obj [("error", Json.str "MCP server timeout (30s)")]),
        [.mcpPost endpoint payload])
    | .requestError m => (.ok (Json.obj [("error", Json.str ("MCP server error: " ++ m))]),
        [.mcpPost endpoint payload])
    | .otherExn m => (.exn m, [.mcpPost endpoint payload])

/-- Function `execute_windmill_tool`: runs the referenced script; every exception is
caught locally and wrapped into an error dict. -/
def execute_windmill_tool (env : Env) (metadata : ToolMeta)
    (arguments : List (String × Json)) : Json × List Effect :=
  match metadata.script_path with
  | none => (Json.obj [("error", Json.str "Windmill script path not configured")], [])
  | some path =>
    match env.windmill path arguments with
    | .ok result => (Json.obj [("success", Json.bool true), ("data", result)],
        [.windmillRun path arguments])
    | .exn e => (Json.obj [("error",
        Json.str ("Windmill script execution failed: " ++ e))], [.windmillRun path arguments])

/-- Function `execute_tool`: looks the name up in the prepared tool list first; only
when no definition matches does the built-in `search_knowledge_base`
fallback (or the not-found error) apply.  A found definition is dispatched
by its `_metadata.tool_type` (default `"unknown"`), with every exception of
the mcp path converted to `{"error": str(e)}`. -/
def execute_tool (env : Env) (tool_name : String) (arguments : List (String × Json))
    (tools : List ToolDef) (chatbot_id openai_api_key db_resource : String) :
    Json × List Effect :=
  match tools.find? (fun t => t.name == tool_name) with
  | none =>
    if tool_name == "search_knowledge_base" then
      execute_rag_search env chatbot_id (queryArg arguments) openai_api_key db_resource
    else
      (Json.obj [("error", Json.str ("Tool \x27" ++ tool_name ++ "\x27 not found"))], [])
  | some tool =>
    match tool.metadata with
    | some m =>
      if m.tool_type == "mcp" then
        match execute_mcp_tool env tool_name m arguments chatbot_id with
        | (Outcome.ok j, effs) => (j, effs)
        | (Outcome.exn e, effs) => (Json.obj [("error", Json.str e)], effs)
      else if m.tool_type == "windmill" then
        execute_windmill_tool env m arguments
      else
        (Json.obj [("error", Json.str ("Unknown tool type: " ++ m.tool_type))], [])
    | none => (Json.obj [("error", Json.str "Unknown tool type: unknown")], [])

/-- Function `prepare_tool_definitions`: converts enabled `mcp` and `windmill` tool
records into the OpenAI function-calling format (records of any other
provider kind are skipped).  The mcp branch reads `description`/`parameters`
from the `config` dict of the record, while the windmill branch reads them
from the top level of the record; the chatbot id parameter is unused, as in
the source. -/
def prepare_tool_definitions (tools : List ToolRecord) (chatbot_id : String) : List ToolDef :=
  tools.filterMap (fun tool =>
    if !tool.enabled then none
    else if tool.provider == "mcp" then
      some { name := tool.name.getD "unknown_tool"
             description := tool.config_description.getD ""
             parameters := tool.config_parameters.getD
               (Json.obj [("type", Json.str "object"), ("properties", Json.obj [])])
             metadata := some { tool_type := "mcp"
                                mcp_server_url := tool.config_server_url
                                script_path := none
                                integration_id := tool.integration_id } }
    else if tool.provider == "windmill" then
      some { name := tool.name.getD "unknown_tool"
             description := tool.description.getD ""
             parameters := tool.parameters.getD
               (Json.obj [("type", Json.str "object"), ("properties", Json.obj [])])
             metadata := some { tool_type := "windmill"
                                mcp_server_url := none
                                script_path := tool.settings_script_path
                                integration_id := tool.id } }
    else none)

/-- Function `build_tool_instructions`: the auto-generated tool-usage block appended
to the system prompt (empty when there are no tool records). -/
def build_tool_instructions (tools : List ToolRecord) : String :=
  if tools.isEmpty then ""
  else
    tools.foldl (fun acc tool =>
      let description := tool.config_description.getD ""
      let llm_instructions := tool.config_llm_instructions.getD ""
      let acc := acc ++ "• " ++ pyStr tool.name ++ ": " ++ description ++ "\n"
      let acc := if llm_instructions != "" then
          acc ++ "  CUÁNDO USAR: " ++ llm_instructions ++ "\n"
        else acc
      acc ++ "\n")
      ("\n\n=== HERRAMIENTAS DISPONIBLES ===\n" ++
       "Tienes acceso a las siguientes herramientas. Úsalas cuando sea apropiado:\n\n")

/-- The implicit `search_knowledge_base` tool definition appended by `main`
when retrieval is enabled (it carries no `_metadata` key). -/
def builtinSearchTool : ToolDef :=
  { name := "search_knowledge_base"
    description := "Search the chatbot\x27s knowledge base for relevant information to answer user questions"
    parameters := Json.obj
      [("type", Json.str "object"),
       ("properties", Json.obj
         [("query", Json.obj
           [("type", Json.str "string"),
            ("description", Json.str "The search query to find relevant information")])]),
       ("required", Json.arr [Json.str "query"])]
    metadata := none }

/-- Tool-call processing of one chat-completions agent iteration: for each
requested call, parse its arguments (empty object on decode failure),
execute it, record a `ToolExecutionRecord`, and append the tool-result
message.  Returns the extended message list (`Outcome.exn` when the status
computation raised on a non-dict tool result, aborting the remaining calls
with no record for the raising one), the new records in order, and the trace
of external calls. -/
def processOAToolCalls (env : Env) (tools : List ToolDef)
    (chatbot_id openai_api_key db_resource : String) (iteration : Nat) :
    List OAToolCall → List OAMessage →
      Outcome (List OAMessage) × List ToolExecutionRecord × List Effect
  | [], msgs => (.ok msgs, [], [])
  | call :: rest, msgs =>
    let args := call.arguments.getD []
    let r := execute_tool env call.name args tools chatbot_id openai_api_key db_resource
    match resultStatus r.1 with
    | .exn e => (.exn e, [], r.2)
    | .ok st =>
      let record : ToolExecutionRecord :=
        { tool_name := call.name, arguments := args, result := r.1,
          status := st, iteration := iteration }
      let next := processOAToolCalls env tools chatbot_id openai_api_key db_resource iteration
        rest (msgs ++ [OAMessage.toolResult call.id call.name r.1])
      (next.1, record :: next.2.1, r.2 ++ next.2.2)

/-- The chat-completions agent loop body, structured on the remaining fuel
(`max_iterations - iteration`); `iteration` is the Python loop counter
before entry.  The per-iteration `except` covers both the provider call and
the tool-result processing: an `AttributeError` raised by the status
computation on a non-dict tool result also lands in the fixed-message error
return. -/
def oaLoopGo (env : Env) (model_name : String) (tools : List ToolDef)
    (chatbot_id openai_api_key db_resource : String) :
    Nat → List OAMessage → List ToolExecutionRecord → Nat → Nat → Nat →
      AgentLoopResult × List Effect
  | 0, _msgs, execs, tokIn, tokOut, iteration =>
    ({ reply_text := some "I need more time to think about this. Could you please rephrase your question?"
       tool_executions := execs
       usage_info := { provider := "openai", model := some model_name
                       tokens_input := some tokIn, tokens_output := some tokOut
                       tool_calls := some execs.length, iterations := some iteration
                       max_iterations_reached := some true } }, [])
  | fuel+1, msgs, execs, tokIn, tokOut, iteration =>
    let iter := iteration + 1
    match env.openaiChat msgs tools with
    | .exn e =>
      ({ reply_text := some "I encountered an error while processing your request."
         tool_executions := execs
         usage_info := { provider := "openai", model := some model_name
                         tokens_input := some tokIn, tokens_output := some tokOut
                         tool_calls := some execs.length, iterations := some iter
                         error := some e } }, [.providerCall "openai"])
    | .ok resp =>
      let tokIn := tokIn + resp.prompt_tokens
      let tokOut := tokOut + resp.completion_tokens
      if resp.finish_reason == "tool_calls" && !resp.tool_calls.isEmpty then
        let step := processOAToolCalls env tools chatbot_id openai_api_key db_resource iter
          resp.tool_calls (msgs ++ [OAMessage.assistantToolCalls resp.content resp.tool_calls])
        match step.1 with
        | .exn e =>
          ({ reply_text := some "I encountered an error while processing your request."
             tool_executions := execs ++ step.2.1
             usage_info := { provider := "openai", model := some model_name
                             tokens_input := some tokIn, tokens_output := some tokOut
                             tool_calls := some (execs ++ step.2.1).length
                             iterations := some iter, error := some e } },
           Effect.providerCall "openai" :: step.2.2)
        | .ok newMsgs =>
          let next := oaLoopGo env model_name tools chatbot_id openai_api_key db_resource
            fuel newMsgs (execs ++ step.2.1) tokIn tokOut iter
          (next.1, Effect.providerCall "openai" :: step.2.2 ++ next.2)
      else if resp.finish_reason == "stop" then
        ({ reply_text := resp.content
           tool_executions := execs
           usage_info := { provider := "openai", model := some model_name
                           tokens_input := some tokIn, tokens_output := some tokOut
                           tool_calls := some execs.length, iterations := some iter } },
         [.providerCall "openai"])
      else
        ({ reply_text := some (pyOrStr resp.content "I encountered an issue processing your request.")
           tool_executions := execs
           usage_info := { provider := "openai", model := some model_name
                           tokens_input := some tokIn, tokens_output := some tokOut
                           tool_calls := some execs.length, iterations := some iter
                           finish_reason := some resp.finish_reason } },
         [.providerCall "openai"])

/-- Wrapper `execute_agent_loop_openai` (temperature is carried for fidelity only —
the provider oracle abstracts the sampling configuration). -/
def execute_agent_loop_openai (env : Env) (model_name : String)
    (messages : List OAMessage) (tools : List ToolDef) (chatbot_id : String)
    (temperature : Rat) (openai_api_key db_resource : String)
    (max_iterations : Nat) : AgentLoopResult × List Effect :=
  oaLoopGo env model_name tools chatbot_id openai_api_key db_resource
    max_iterations messages [] 0 0 0

/-- Function-call processing of one Gemini agent iteration: executes each
call (empty argument object when `fc.args` is absent), records it, and
builds the `FunctionResponse` parts (`Outcome.exn` when the status
computation raised on a non-dict tool result, aborting the remaining calls
with no record for the raising one). -/
def processGFunctionCalls (env : Env) (tools : List ToolDef)
    (chatbot_id google_api_key db_resource : String) (iteration : Nat) :
    List GFunctionCall →
      Outcome (List (String × Json)) × List ToolExecutionRecord × List Effect
  | [] => (.ok [], [], [])
  | fc :: rest =>
    let args := fc.args.getD []
    let r := execute_tool env fc.name args tools chatbot_id google_api_key db_resource
    match resultStatus r.1 with
    | .exn e => (.exn e, [], r.2)
    | .ok st =>
      let record : ToolExecutionRecord :=
        { tool_name := fc.name, arguments := args, result := r.1,
          status := st, iteration := iteration }
      let next := processGFunctionCalls env tools chatbot_id google_api_key db_resource
        iteration rest
      ((match next.1 with
        | .ok parts => Outcome.ok ((fc.name, r.1) :: parts)
        | .exn e2 => Outcome.exn e2), record :: next.2.1, r.2 ++ next.2.2)

/-- The Gemini agent loop body (fuel-structured like `oaLoopGo`).  Its
exception handler classifies quota/limit errors and selects between the two
fallback messages passed in by the orchestrator; the per-iteration `except`
also catches an `AttributeError` raised by the status computation on a
non-dict tool result. -/
def gLoopGo (env : Env) (model_name : String) (tools : List ToolDef)
    (decls : List GFuncDecl) (chatbot_id google_api_key db_resource : String)
    (fallback_message_error fallback_message_limit : String) :
    Nat → List GContent → List ToolExecutionRecord → Nat → Nat → Nat →
      AgentLoopResult × List Effect
  | 0, _msgs, execs, tokIn, tokOut, iteration =>
    ({ reply_text := some "Necesito más información para responder. ¿Podrías reformular tu pregunta?"
       tool_executions := execs
       usage_info := { provider := "google", model := some model_name
                       tokens_input := some tokIn, tokens_output := some tokOut
                       tool_calls := some execs.length, iterations := some iteration
                       max_iterations_reached := some true } }, [])
  | fuel+1, msgs, execs, tokIn, tokOut, iteration =>
    let iter := iteration + 1
    match env.geminiGen msgs decls with
    | .exn e =>
      let is_limit_error := isLimitErrorMsg e
      ({ reply_text := some (if is_limit_error then fallback_message_limit
           else fallback_message_error)
         tool_executions := execs
         usage_info := { provider := "google", model := some model_name
                         tokens_input := some tokIn, tokens_output := some tokOut
                         tool_calls := some execs.length, iterations := some iter
                         error := some e, is_limit_error := some is_limit_error } },
       [.providerCall "google"])
    | .ok resp =>
      let tokIn := match resp.usage with
        | some u => tokIn + u.1
        | none => tokIn
      let tokOut := match resp.usage with
        | some u => tokOut + u.2
        | none => tokOut
      if !resp.function_calls.isEmpty then
        let step := processGFunctionCalls env tools chatbot_id google_api_key db_resource
          iter resp.function_calls
        match step.1 with
        | .exn e =>
          let is_limit_error := isLimitErrorMsg e
          ({ reply_text := some (if is_limit_error then fallback_message_limit
               else fallback_message_error)
             tool_executions := execs ++ step.2.1
             usage_info := { provider := "google", model := some model_name
                             tokens_input := some tokIn, tokens_output := some tokOut
                             tool_calls := some (execs ++ step.2.1).length
                             iterations := some iter
                             error := some e, is_limit_error := some is_limit_error } },
           Effect.providerCall "google" :: step.2.2)
        | .ok parts =>
          let next := gLoopGo env model_name tools decls chatbot_id google_api_key db_resource
            fallback_message_error fallback_message_limit fuel
            (msgs ++ [GContent.modelContent resp.function_calls resp.text,
                      GContent.functionResults parts])
            (execs ++ step.2.1) tokIn tokOut iter
          (next.1, Effect.providerCall "google" :: step.2.2 ++ next.2)
      else
        ({ reply_text := resp.text
           tool_executions := execs
           usage_info := { provider := "google", model := some model_name
                           tokens_input := some tokIn, tokens_output := some tokOut
                           tool_calls := some execs.length, iterations := some iter } },
         [.providerCall "google"])

/-- Wrapper `execute_agent_loop_gemini`: sanitizes the parameter schema of each tool into
a function declaration, prefixes the system prompt to the user message, and
runs the loop. -/
def execute_agent_loop_gemini (env : Env) (model_name system_prompt user_message : String)
    (chat_history : List GContent) (tools : List ToolDef) (chatbot_id : String)
    (temperature : Rat) (google_api_key db_resource : String)
    (fallback_message_error fallback_message_limit : String)
    (max_iterations : Nat) : AgentLoopResult × List Effect :=
  let decls := tools.map (fun t =>
    { name := t.name, description := t.description,
      parameters := sanitize_gemini_parameters t.parameters : GFuncDecl })
  let first_message := system_prompt ++ "\n\nUser Message: " ++ user_message
  gLoopGo env model_name tools decls chatbot_id google_api_key db_resource
    fallback_message_error fallback_message_limit max_iterations
    (chat_history ++ [GContent.textContent "user" first_message]) [] 0 0 0

/-- Ghost replay of the chat-completions loop that counts the tool-call
requests the provider issues across the iterations the loop processes (an
iteration aborted by a raising status computation still counts every request
the provider issued in it). -/
def oaIssuedCalls (env : Env) (tools : List ToolDef)
    (chatbot_id openai_api_key db_resource : String) :
    Nat → List OAMessage → Nat → Nat
  | 0, _msgs, _iteration => 0
  | fuel+1, msgs, iteration =>
    let iter := iteration + 1
    match env.openaiChat msgs tools with
    | .exn _ => 0
    | .ok resp =>
      if resp.finish_reason == "tool_calls" && !resp.tool_calls.isEmpty then
        let step := processOAToolCalls env tools chatbot_id openai_api_key db_resource iter
          resp.tool_calls (msgs ++ [OAMessage.assistantToolCalls resp.content resp.tool_calls])
        match step.1 with
        | .ok ms => resp.tool_calls.length +
            oaIssuedCalls env tools chatbot_id openai_api_key db_resource fuel ms iter
        | .exn _ => resp.tool_calls.length
      else 0

/-- Ghost replay of the Gemini loop counting issued function-call requests. -/
def gIssuedCalls (env : Env) (tools : List ToolDef) (decls : List GFuncDecl)
    (chatbot_id google_api_key db_resource : String) :
    Nat → List GContent → Nat → Nat
  | 0, _msgs, _iteration => 0
  | fuel+1, msgs, iteration =>
    let iter := iteration + 1
    match env.geminiGen msgs decls with
    | .exn _ => 0
    | .ok resp =>
      if !resp.function_calls.isEmpty then
        let step := processGFunctionCalls env tools chatbot_id google_api_key db_resource
          iter resp.function_calls
        match step.1 with
        | .ok parts => resp.function_calls.length +
            gIssuedCalls env tools decls chatbot_id google_api_key db_resource fuel
              (msgs ++ [GContent.modelContent resp.function_calls resp.text,
                        GContent.functionResults parts]) iter
        | .exn _ => resp.function_calls.length
      else 0

mutual

/-- Serialization `json.dumps` (modulo string escaping, on which no claim depends). -/
def jsonDumps : Json → String
  | .null => "null"
  | .bool b => if b then "true" else "false"
  | .num n => toString n
  | .str s => "\x22" ++ s ++ "\x22"
  | .arr items => "[" ++ jsonDumpsItems items ++ "]"
  | .obj fs => "\x7b" ++ jsonDumpsFields fs ++ "\x7d"

def jsonDumpsItems : List Json → String
  | [] => ""
  | [j] => jsonDumps j
  | j :: rest => jsonDumps j ++ ", " ++ jsonDumpsItems rest

def jsonDumpsFields : List (String × Json) → String
  | [] => ""
  | [(k, v)] => "\x22" ++ k ++ "\x22: " ++ jsonDumps v
  | (k, v) :: rest => "\x22" ++ k ++ "\x22: " ++ jsonDumps v ++ ", " ++ jsonDumpsFields rest

end

/-- Python `str()` rendering of a JSON value inside an f-string (scalar
renderings as Python prints them; containers via the JSON rendering —
prompt text only, no claim depends on it). -/
def pyShow : Json → String
  | .null => "None"
  | .bool b => if b then "True" else "False"
  | .num n => toString n
  | .str s => s
  | j => jsonDumps j

/-- One numbered chunk entry of the knowledge-base context block. -/
def ragChunkBlock (i : Nat) (c : Chunk) : String :=
  let source_info := "[Source: " ++ c.source_name ++
    (if (c.metadata.get "page").truthy then ", Page " ++ pyShow (c.metadata.get "page")
     else "") ++
    ", Relevance: " ++ pctFormat c.similarity ++ "]"
  toString i ++ ". " ++ source_info ++ "\n" ++ c.content ++ "\n\n"

def ragChunksFrom (i : Nat) : List Chunk → String
  | [] => ""
  | c :: rest => ragChunkBlock i c ++ ragChunksFrom (i + 1) rest

/-- The `=== KNOWLEDGE BASE CONTEXT ===` block built when at least one chunk
was retrieved. -/
def ragContextBlock (chunks : List Chunk) : String :=
  "\n\n=== KNOWLEDGE BASE CONTEXT ===\n" ++
  "Use the following information to answer the user\x27s question. " ++
  "Only use this information if it\x27s relevant to the query.\n\n" ++
  ragChunksFrom 1 chunks ++
  "=== END KNOWLEDGE BASE CONTEXT ===\n"

/-- The `retrieved_sources` rendering of the final envelope. -/
def sourcesOf (chunks : List Chunk) : List SourceEntry :=
  chunks.map (fun c =>
    { source_name := c.source_name, similarity := c.similarity, metadata := c.metadata })

def defaultFallbackError : String :=
  "Lo siento, estoy teniendo problemas técnicos. Por favor intenta de nuevo más tarde."

def defaultFallbackLimit : String :=
  "Lo siento, he alcanzado mi límite de uso. El administrador ha sido notificado."

/-- The `except` arm of the provider call in `main`: quota classification,
fallback-message selection, the error usage block, and the common final
envelope (the tool-execution list is still empty on every path that can
raise into this handler). -/
def llmErrorEnvelope (chatbot : Chatbot) (provider : String) (e : String)
    (retrieved_chunks : List Chunk) : MainResult :=
  let is_limit_error := isLimitErrorMsg e
  { reply_text := some (if is_limit_error then
        chatbot.fallback_message_limit.getD defaultFallbackLimit
      else chatbot.fallback_message_error.getD defaultFallbackError)
    updated_variables := some (Json.obj [])
    usage_info := some
      { provider := provider, model := chatbot.model_name,
        error := some e, is_limit_error := some is_limit_error }
    tool_executions := some []
    retrieved_sources := some (sourcesOf retrieved_chunks) }

/-- Function `main` of `2_whatsapp_llm_processing.py` (Step 2): gate check, provider
resolution, prompt assembly, RAG retrieval, tool preparation, agent loop or
single-shot provider call, and envelope assembly.  The ambient
`wmill.get_variable` default for the Google key is modelled as the explicit
`google_api_key` argument; the second pair component is the trace of
external calls. -/
def mainStep2 (env : Env) (context_payload : ContextPayload) (user_message : String)
    (openai_api_key google_api_key default_provider db_resource : String) :
    MainResult × List Effect :=
  if !context_payload.proceed then
    ({ error := some (context_payload.reason.getD "Unknown error in Step 1")
       reply_text := some "Sorry, I\x27m unable to process your message at this time. Please try again later."
       should_notify_admin := some context_payload.notify_admin }, [])
  else
    let chatbot := context_payload.chatbot
    let user := context_payload.user
    let history := context_payload.history
    let tools := context_payload.tools
    let provider :=
      if strContains (pyLower (chatbot.model_name.getD "")) "gemini" then "google"
      else if strContains (pyLower (chatbot.model_name.getD "")) "gpt" then "openai"
      else default_provider
    let base_prompt := chatbot.system_prompt.getD "You are a helpful assistant."
    let persona := chatbot.persona.getD ""
    let user_context_str :=
      "\n\nUser Context:\nName: " ++ pyStr user.name ++ "\nPhone: " ++ pyStr user.phone ++
      (if user.user_variables.truthy then "\nKnown Info: " ++ jsonDumps user.user_variables
       else "")
    let rag := if chatbot.rag_enabled then
        retrieve_knowledge env chatbot.id user_message openai_api_key db_resource
      else ([], [])
    let retrieved_chunks := rag.1
    let rag_context :=
      if retrieved_chunks.isEmpty then "" else ragContextBlock retrieved_chunks
    let full_system_prompt := base_prompt ++ "\n" ++ persona ++ "\n" ++ user_context_str
    let full_system_prompt :=
      if rag_context != "" then full_system_prompt ++ "\n" ++ rag_context
      else full_system_prompt
    let tool_instructions := build_tool_instructions tools
    let full_system_prompt :=
      if tool_instructions != "" then full_system_prompt ++ tool_instructions
      else full_system_prompt
    let tool_definitions := prepare_tool_definitions tools chatbot.id
    let tool_definitions :=
      if chatbot.rag_enabled then tool_definitions ++ [builtinSearchTool]
      else tool_definitions
    let retrieved_sources := sourcesOf retrieved_chunks
    if provider == "openai" then
      if openai_api_key == "" then
        ({ error := some "Missing OpenAI API Key" }, rag.2)
      else
        let model_name := chatbot.model_name.getD "gpt-4o"
        let messages := OAMessage.raw "system" full_system_prompt ::
          (history.filterMap (fun msg => match msg.content with
            | some c => if c != "" then some (OAMessage.raw msg.role c) else none
            | none => none)) ++ [OAMessage.raw "user" user_message]
        if !tool_definitions.isEmpty then
          let r := execute_agent_loop_openai env model_name messages tool_definitions
            chatbot.id (chatbot.temperature.getD (7/10)) openai_api_key db_resource 5
          ({ reply_text := r.1.reply_text
             updated_variables := some (Json.obj [])
             usage_info := some { r.1.usage_info with
               rag_used := some (rag_context != ""),
               chunks_retrieved := some retrieved_chunks.length }
             tool_executions := some r.1.tool_executions
             retrieved_sources := some retrieved_sources }, rag.2 ++ r.2)
        else
          match env.openaiChat messages [] with
          | .ok resp =>
            ({ reply_text := resp.content
               updated_variables := some (Json.obj [])
               usage_info := some
                 { provider := "openai", model := some model_name,
                   tokens_input := some resp.prompt_tokens,
                   tokens_output := some resp.completion_tokens,
                   rag_used := some (rag_context != ""),
                   chunks_retrieved := some retrieved_chunks.length }
               tool_executions := some []
               retrieved_sources := some retrieved_sources },
             rag.2 ++ [.providerCall "openai"])
          | .exn e =>
            (llmErrorEnvelope chatbot provider e retrieved_chunks,
             rag.2 ++ [.providerCall "openai"])
    else if provider == "google" then
      if google_api_key == "" then
        ({ error := some "Missing Google API Key" }, rag.2)
      else
        let model_name := chatbot.model_name.getD "gemini-3-flash-preview"
        let chat_history := history.filterMap (fun msg => match msg.content with
          | some c => if c != "" then
              some (GContent.textContent (if msg.role == "user" then "user" else "model") c)
            else none
          | none => none)
        if !tool_definitions.isEmpty then
          let r := execute_agent_loop_gemini env model_name full_system_prompt user_message
            chat_history tool_definitions chatbot.id (chatbot.temperature.getD (7/10))
            google_api_key db_resource
            (chatbot.fallback_message_error.getD defaultFallbackError)
            (chatbot.fallback_message_limit.getD defaultFallbackLimit) 5
          ({ reply_text := r.1.reply_text
             updated_variables := some (Json.obj [])
             usage_info := some { r.1.usage_info with
               rag_used := some (rag_context != ""),
               chunks_retrieved := some retrieved_chunks.length }
             tool_executions := some r.1.tool_executions
             retrieved_sources := some retrieved_sources }, rag.2 ++ r.2)
        else
          let final_input := full_system_prompt ++ "\n\nUser Message: " ++ user_message
          let messages := chat_history ++ [GContent.textContent "user" final_input]
          match env.geminiGen messages [] with
          | .ok resp =>
            match resp.usage with
            | some u =>
              ({ reply_text := resp.text
                 updated_variables := some (Json.obj [])
                 usage_info := some
                   { provider := "google", model := some model_name,
                     tokens_input := some u.1, tokens_output := some u.2,
                     rag_used := some (rag_context != ""),
                     chunks_retrieved := some retrieved_chunks.length }
                 tool_executions := some []
                 retrieved_sources := some retrieved_sources },
               rag.2 ++ [.providerCall "google"])
            | none =>
              match resp.text with
              | some t =>
                ({ reply_text := some t
                   updated_variables := some (Json.obj [])
                   usage_info := some
                     { provider := "google", model := some model_name,
                       tokens_input := some (estimate_tokens final_input),
                       tokens_output := some (estimate_tokens t),
                       rag_used := some (rag_context != ""),
                       chunks_retrieved := some retrieved_chunks.length }
                   tool_executions := some []
                   retrieved_sources := some retrieved_sources },
                 rag.2 ++ [.providerCall "google"])
              | none =>
                (llmErrorEnvelope chatbot provider
                  "object of type \x27NoneType\x27 has no len()" retrieved_chunks,
                 rag.2 ++ [.providerCall "google"])
          | .exn e =>
            (llmErrorEnvelope chatbot provider e retrieved_chunks,
             rag.2 ++ [.providerCall "google"])
    else
      ({ error := some ("Unknown provider: " ++ provider) }, rag.2)

/-- A neutral environment for concrete runs: retrieval succeeds with no
chunks, the providers are unreached unless overridden. -/
def trivialEnv : Env :=
  { embedSearch := fun _ _ _ _ => .ok []
    http := fun _ _ => .ok (Json.obj [])
    windmill := fun _ _ => .ok Json.null
    openaiChat := fun _ _ => .exn "unreached"
    geminiGen := fun _ _ => .exn "unreached" }

def sampleChatbot : Chatbot :=
  { id := "cb-1", model_name := some "gemini-pro"
    system_prompt := some "You are helpful", persona := some ""
    temperature := some (7/10), rag_enabled := true
    fallback_message_error := some "ERR-MSG", fallback_message_limit := some "LIMIT-MSG" }

def sampleUser : UserRecord :=
  { id := some "u1", phone := some "123", name := some "Ana"
    user_variables := Json.obj [] }

/-- A context payload with `proceed = false` (the upstream gate rejected the
message). -/
def blockedContext : ContextPayload :=
  { proceed := false, reason := some "User is blocked", notify_admin := true
    chatbot := sampleChatbot, user := sampleUser, history := [], tools := [] }

/-- A RAG-enabled, Gemini-modelled context payload with no tool records. -/
def ragGeminiContext : ContextPayload :=
  { proceed := true, reason := none, notify_admin := false
    chatbot := sampleChatbot, user := sampleUser, history := [], tools := [] }

def mcpMeta : ToolMeta :=
  { tool_type := "mcp", mcp_server_url := some "http://mcp:3001"
    script_path := none, integration_id := some "i1" }

/-- An MCP-backed tool definition for concrete executor runs. -/
def mcpTool : ToolDef :=
  { name := "calculate_pricing", description := "Pricing calculator"
    parameters := Json.obj [("type", Json.str "object"), ("properties", Json.obj [])]
    metadata := some mcpMeta }

def windmillMeta : ToolMeta :=
  { tool_type := "windmill", mcp_server_url := none
    script_path := some "f/dev/myscript", integration_id := some "i2" }

/-- A Windmill-backed tool definition for concrete executor runs. -/
def windmillTool : ToolDef :=
  { name := "run_script", description := "Internal script"
    parameters := Json.obj [("type", Json.str "object"), ("properties", Json.obj [])]
    metadata := some windmillMeta }

def httpExnEnv : Env := { trivialEnv with http := fun _ _ => .otherExn "connection reset" }

def httpTimeoutEnv : Env := { trivialEnv with http := fun _ _ => .timeout }

def httpReqErrEnv : Env := { trivialEnv with http := fun _ _ => .requestError "502 Bad Gateway" }

def windmillExnEnv : Env := { trivialEnv with windmill := fun _ _ => .exn "script crashed" }

def ragExnEnv : Env := { trivialEnv with embedSearch := fun _ _ _ _ => .exn "embedding down" }

/-- A provider pair that always requests one tool call. -/
def alwaysToolsEnv : Env :=
  { trivialEnv with
    openaiChat := fun _ _ => .ok
      { prompt_tokens := 10, completion_tokens := 5, finish_reason := "tool_calls",
        content := none,
        tool_calls := [{ id := "c1", name := "search_knowledge_base", arguments := some [] }] }
    geminiGen := fun _ _ => .ok
      { usage := some (10, 5),
        function_calls := [{ name := "search_knowledge_base", args := some [] }],
        text := none } }

/-- A chat-completions provider that requests two tool calls in its first
turn (seeing the 1-element message list), one in its second (seeing the
4-element list: +1 assistant, +2 tool results), and then stops. -/
def twoOneEnv : Env :=
  { trivialEnv with
    openaiChat := fun msgs _ =>
      if msgs.length == 1 then
        Outcome.ok
          { prompt_tokens := 10, completion_tokens := 5, finish_reason := "tool_calls",
            content := none,
            tool_calls := [{ id := "c1", name := "t1", arguments := some [] },
                           { id := "c2", name := "t2", arguments := some [] }] }
      else if msgs.length == 4 then
        Outcome.ok
          { prompt_tokens := 10, completion_tokens := 5, finish_reason := "tool_calls",
            content := none,
            tool_calls := [{ id := "c3", name := "t1", arguments := some [] }] }
      else
        Outcome.ok
          { prompt_tokens := 10, completion_tokens := 5, finish_reason := "stop",
            content := some "done", tool_calls := [] } }

/-- A Gemini provider that immediately returns a final text answer. -/
def geminiAnswerEnv : Env :=
  { trivialEnv with
    geminiGen := fun _ _ =>
      Outcome.ok { usage := some (30, 7), function_calls := [], text := some "Hola" } }

/-- Same provider, with the embedding service down. -/
def ragDownGeminiEnv : Env :=
  { geminiAnswerEnv with embedSearch := fun _ _ _ _ => .exn "embedding down" }

def geminiQuotaExnEnv : Env :=
  { trivialEnv with geminiGen := fun _ _ => .exn "429 Quota exceeded" }

def openaiQuotaExnEnv : Env :=
  { trivialEnv with openaiChat := fun _ _ => .exn "429 Quota exceeded" }

/-- A RAG-disabled, Gemini-modelled context with no tool records (single-shot
path). -/
def noRagGeminiContext : ContextPayload :=
  { proceed := true, reason := none, notify_admin := false
    chatbot := { sampleChatbot with rag_enabled := false }
    user := sampleUser, history := [], tools := [] }

/-- A RAG-enabled, GPT-modelled context (so the chat-completions agent loop
runs, with the built-in search tool in the canonical list). -/
def ragOpenaiContext : ContextPayload :=
  { proceed := true, reason := none, notify_admin := false
    chatbot := { sampleChatbot with model_name := some "gpt-4o" }
    user := sampleUser, history := [], tools := [] }

/-- A Gemini provider that requests one `search_knowledge_base` call on the
first turn and then answers. -/
def ragCallGeminiEnv : Env :=
  { trivialEnv with
    geminiGen := fun msgs _ =>
      if msgs.length == 1 then
        Outcome.ok { usage := some (10, 5)
                     function_calls := [{ name := "search_knowledge_base"
                                          args := some [("query", Json.str "q")] }]
                     text := none }
      else
        Outcome.ok { usage := some (10, 5), function_calls := [], text := some "done" } }

/-- A chat-completions provider that always requests one call of the MCP tool,
over an MCP server whose 2xx response body is a JSON list (a non-dict). -/
def nonDictToolEnv : Env :=
  { trivialEnv with
    http := fun _ _ => .ok (Json.arr [])
    openaiChat := fun _ _ => .ok
      { prompt_tokens := 10, completion_tokens := 5, finish_reason := "tool_calls",
        content := none,
        tool_calls := [{ id := "c1", name := "calculate_pricing", arguments := some [] }] } }

/-- A chat-completions provider that immediately returns a final answer. -/
def openaiAnswerEnv : Env :=
  { trivialEnv with
    openaiChat := fun _ _ => .ok
      { prompt_tokens := 3, completion_tokens := 2, finish_reason := "stop",
        content := some "ok", tool_calls := [] } }

/-- Same provider, with the embedding service down. -/
def ragDownOpenaiEnv : Env :=
  { openaiAnswerEnv with embedSearch := fun _ _ _ _ => .exn "embedding down" }

/-- A RAG-disabled, GPT-modelled context with no tool records (single-shot
path). -/
def noRagOpenaiContext : ContextPayload :=
  { proceed := true, reason := none, notify_admin := false
    chatbot := { sampleChatbot with rag_enabled := false, model_name := some "gpt-4o" }
    user := sampleUser, history := [], tools := [] }

/-- Unconditional one-step unfolding of `cleanFields` on a cons cell. -/
theorem cleanFields_cons (k : String) (v : Json) (rest : List (String × Json)) :
    cleanFields ((k, v) :: rest) =
      if bannedKeyNorms.contains (normalizeKey k) then
        cleanFields rest
      else if !valid_fields.contains k && k != "properties" then
        match v with
        | .obj vf =>
          if Json.hasKey vf "type" then (k, .obj (cleanFields vf)) :: cleanFields rest
          else cleanFields rest
        | _ => cleanFields rest
      else
        match v with
        | .obj vf => (k, .obj (cleanFields vf)) :: cleanFields rest
        | .arr items => (k, .arr (cleanItems items)) :: cleanFields rest
        | _ => (k, v) :: cleanFields rest := by
  rw [cleanFields.eq_def]

/-- Unconditional one-step unfolding of `cleanItems` on a cons cell. -/
theorem cleanItems_cons (item : Json) (rest : List Json) :
    cleanItems (item :: rest) =
      (match item with
       | .obj f => Json.obj (cleanFields f)
       | _ => item) :: cleanItems rest := by
  rw [cleanItems.eq_def]

/-- Whitelisted keys never normalize to a banned key. -/
theorem valid_not_banned {k : String} (h : k ∈ valid_fields) :
    bannedKeyNorms.contains (normalizeKey k) = false := by
  fin_cases h <;> decide

theorem hasKey_append (a b : List (String × Json)) (k : String) :
    Json.hasKey (a ++ b) k = (Json.hasKey a k || Json.hasKey b k) := by
  simp [Json.hasKey]

theorem hasKey_cons (k' : String) (v : Json) (rest : List (String × Json)) (k : String) :
    Json.hasKey ((k', v) :: rest) k = ((k' == k) || Json.hasKey rest k) := by
  simp [Json.hasKey]

/-- Cleaning preserves the presence of a whitelisted key (in particular of
`"type"` and `"properties"`). -/
theorem hasKey_cleanFields {fs : List (String × Json)} {k : String}
    (hval : k ∈ valid_fields) (h : Json.hasKey fs k = true) :
    Json.hasKey (cleanFields fs) k = true := by
  induction fs with
  | nil => simp [Json.hasKey] at h
  | cons hd rest ih =>
    obtain ⟨k', v⟩ := hd
    rw [hasKey_cons] at h
    rw [cleanFields_cons]
    by_cases hk : k' == k
    · have hkk : k' = k := by simpa using hk
      subst hkk
      rw [if_neg (by simpa using valid_not_banned hval), if_neg (by simp [hval])]
      cases v <;> simp [hasKey_cons]
    · have h' : Json.hasKey rest k = true := by
        rcases Bool.or_eq_true_iff.mp h with h0 | h0
        · exact absurd h0 hk
        · exact h0
      have ih' := ih h'
      repeat' split
      all_goals simp [hasKey_cons, hk, ih']

/-- Cleaning distributes over concatenation of field lists: every field is
kept or dropped independently of the others. -/
theorem cleanFields_append (a b : List (String × Json)) :
    cleanFields (a ++ b) = cleanFields a ++ cleanFields b := by
  induction a with
  | nil => simp [cleanFields]
  | cons hd rest ih =>
    obtain ⟨k, v⟩ := hd
    rw [List.cons_append, cleanFields_cons, cleanFields_cons]
    repeat' split
    all_goals simp [ih]

/-- Idempotence of the field traversal of `clean_dict` (jointly with the item
traversal of list values). -/
theorem cleanFields_cleanItems_idem :
    (∀ fs, cleanFields (cleanFields fs) = cleanFields fs) ∧
    (∀ items, cleanItems (cleanItems items) = cleanItems items) := by
  refine cleanFields.mutual_induct
    (fun fs => cleanFields (cleanFields fs) = cleanFields fs)
    (fun items => cleanItems (cleanItems items) = cleanItems items)
    ?_ ?_ ?_ ?_ ?_ ?_ ?_ ?_ ?_ ?_
  · simp [cleanFields]
  · intro k v rest hban ih
    simp at hban
    simp [cleanFields_cons, hban, ih]
  · intro k rest hban hcond fields hty ih1 ih2
    have hty' : Json.hasKey (cleanFields fields) "type" = true :=
      hasKey_cleanFields (by simp [valid_fields]) hty
    simp at hban hcond
    simp [cleanFields_cons, hban, hcond.1, hcond.2, hty, hty', ih1, ih2]
  · intro k rest hban hcond fields hty ih
    simp at hban hcond
    simp [cleanFields_cons, hban, hcond.1, hcond.2, hty, ih]
  · intro k v rest hban hcond hobj ih
    simp at hban hcond
    cases v <;>
      first
      | exact absurd rfl (hobj _)
      | simp [cleanFields_cons, hban, hcond.1, hcond.2, ih]
  · intro k rest hban hcond vf ih1 ih2
    simp at hban hcond
    have hcond' : ¬(k ∉ valid_fields ∧ ¬k = "properties") := fun h => h.2 (hcond h.1)
    simp [cleanFields_cons, hban, hcond', ih1, ih2]
  · intro k rest hban hcond items ih1 ih2
    simp at hban hcond
    have hcond' : ¬(k ∉ valid_fields ∧ ¬k = "properties") := fun h => h.2 (hcond h.1)
    simp [cleanFields_cons, hban, hcond', ih1, ih2]
  · intro k v rest hban hcond hobj harr ih
    simp at hban hcond
    have hcond' : ¬(k ∉ valid_fields ∧ ¬k = "properties") := fun h => h.2 (hcond h.1)
    cases v <;>
      first
      | exact absurd rfl (hobj _)
      | exact absurd rfl (harr _)
      | simp [cleanFields_cons, hban, hcond', ih]
  · simp [cleanItems]
  · intro item rest hitem ih
    cases item with
    | obj fields =>
      simp only at hitem
      simp [cleanItems_cons, hitem, ih]
    | null => simp [cleanItems_cons, ih]
    | bool b => simp [cleanItems_cons, ih]
    | num n => simp [cleanItems_cons, ih]
    | str s => simp [cleanItems_cons, ih]
    | arr l => simp [cleanItems_cons, ih]

theorem cleanFields_idem (fs : List (String × Json)) :
    cleanFields (cleanFields fs) = cleanFields fs :=
  cleanFields_cleanItems_idem.1 fs

theorem cleanFields_typeEntry :
    cleanFields [("type", Json.str "object")] = [("type", Json.str "object")] := by
  simp [cleanFields_cons, cleanFields,
    (by decide : normalizeKey "type" ∉ bannedKeyNorms),
    (by decide : "type" ∈ valid_fields)]

theorem cleanFields_propsEntry :
    cleanFields [("properties", Json.obj [])] = [("properties", Json.obj [])] := by
  simp [cleanFields_cons, cleanFields,
    (by decide : normalizeKey "properties" ∉ bannedKeyNorms),
    (by decide : "properties" ∈ valid_fields)]

theorem cleanFields_default :
    cleanFields [("type", Json.str "object"), ("properties", Json.obj [])] =
      [("type", Json.str "object"), ("properties", Json.obj [])] := by
  have h2 := cleanFields_propsEntry
  simp [cleanFields_cons,
    (by decide : normalizeKey "type" ∉ bannedKeyNorms),
    (by decide : "type" ∈ valid_fields), h2]

theorem hasKey_ne_nil {gs : List (String × Json)} {k : String}
    (h : Json.hasKey gs k = true) : gs ≠ [] := by
  intro hnil
  subst hnil
  simp [Json.hasKey] at h

/-- Every sanitizer output is a non-empty object whose fields are a fixed
point of cleaning and contain both `"type"` and `"properties"`. -/
theorem sanitize_output_props (s : Json) :
    ∃ gs, sanitize_gemini_parameters s = Json.obj gs ∧ gs ≠ [] ∧
      cleanFields gs = gs ∧ Json.hasKey gs "type" = true ∧
      Json.hasKey gs "properties" = true := by
  have hdef : ∃ gs,
      Json.obj [("type", Json.str "object"), ("properties", Json.obj [])] = Json.obj gs ∧
      gs ≠ [] ∧ cleanFields gs = gs ∧ Json.hasKey gs "type" = true ∧
      Json.hasKey gs "properties" = true := by
    refine ⟨_, rfl, by simp, cleanFields_default, by rfl, by rfl⟩
  cases s with
  | obj fs =>
    by_cases hne : fs = []
    · subst hne
      simpa [sanitize_gemini_parameters] using hdef
    · have hc := cleanFields_idem fs
      set c := cleanFields fs with hcdef
      by_cases hct : Json.hasKey c "type" = true
      · by_cases hcp : Json.hasKey c "properties" = true
        · refine ⟨c, ?_, hasKey_ne_nil hct, hc, hct, hcp⟩
          simp [sanitize_gemini_parameters, hne, ← hcdef, hct, hcp]
        · refine ⟨c ++ [("properties", Json.obj [])], ?_, by simp, ?_, ?_, ?_⟩
          · simp [sanitize_gemini_parameters, hne, ← hcdef, hct, hcp]
          · rw [cleanFields_append, hc, cleanFields_propsEntry]
          · simp [hasKey_append, hct]
          · simp [hasKey_append, Json.hasKey]
      · by_cases hcp : Json.hasKey (c ++ [("type", Json.str "object")]) "properties" = true
        · refine ⟨c ++ [("type", Json.str "object")], ?_, by simp, ?_, ?_, hcp⟩
          · simp [sanitize_gemini_parameters, hne, ← hcdef, hct, hcp]
          · rw [cleanFields_append, hc, cleanFields_typeEntry]
          · simp [hasKey_append, Json.hasKey]
        · refine ⟨c ++ [("type", Json.str "object")] ++ [("properties", Json.obj [])],
            ?_, by simp, ?_, ?_, ?_⟩
          · simp [sanitize_gemini_parameters, hne, ← hcdef, hct, hcp]
          · rw [cleanFields_append, cleanFields_append, hc, cleanFields_typeEntry,
              cleanFields_propsEntry]
          · simp [hasKey_append, Json.hasKey]
          · simp [hasKey_append, Json.hasKey]
  | null => simpa [sanitize_gemini_parameters] using hdef
  | bool b => simpa [sanitize_gemini_parameters] using hdef
  | num n => simpa [sanitize_gemini_parameters] using hdef
  | str s => simpa [sanitize_gemini_parameters] using hdef
  | arr items => simpa [sanitize_gemini_parameters] using hdef

/-- Sanitizing a non-empty object that is already a cleaning fixed point with
both mandatory keys present returns it unchanged. -/
theorem sanitize_fixed {gs : List (String × Json)} (hne : gs ≠ [])
    (hclean : cleanFields gs = gs) (hty : Json.hasKey gs "type" = true)
    (hpr : Json.hasKey gs "properties" = true) :
    sanitize_gemini_parameters (Json.obj gs) = Json.obj gs := by
  simp [sanitize_gemini_parameters, hne, hclean, hty, hpr]

/-- C6 — The provider parameter sanitizer is idempotent
(`sanitize(sanitize(s)) == sanitize(s)` for every input schema `s`), and for
every input — empty, non-dict or malformed included — its output contains a
`"type"` key and a `"properties"` key. -/
theorem C6_sanitize_idempotent_and_defaults (s : Json) :
    sanitize_gemini_parameters (sanitize_gemini_parameters s) = sanitize_gemini_parameters s ∧
    ∃ fs, sanitize_gemini_parameters s = Json.obj fs ∧
      Json.hasKey fs "type" = true ∧ Json.hasKey fs "properties" = true := by
  obtain ⟨gs, hout, hne, hclean, hty, hpr⟩ := sanitize_output_props s
  refine ⟨?_, gs, hout, hty, hpr⟩
  rw [hout, sanitize_fixed hne hclean hty hpr]

theorem sanCleanItems_cons (j : Json) (rest : List Json) :
    sanCleanItems (j :: rest) =
      ((match j with
        | .obj fs => sanCleanFields fs
        | _ => true) && sanCleanItems rest) := by
  rw [sanCleanItems.eq_def]

theorem sanCleanFields_append (a b : List (String × Json)) :
    sanCleanFields (a ++ b) = (sanCleanFields a && sanCleanFields b) := by
  induction a with
  | nil => simp [sanCleanFields]
  | cons hd rest ih =>
    obtain ⟨k, v⟩ := hd
    simp [sanCleanFields, ih, Bool.and_assoc]

/-- The output of the cleaner contains no banned key at any depth it visits. -/
theorem sanClean_cleanFields :
    (∀ fs, sanCleanFields (cleanFields fs) = true) ∧
    (∀ items, sanCleanItems (cleanItems items) = true) := by
  refine cleanFields.mutual_induct
    (fun fs => sanCleanFields (cleanFields fs) = true)
    (fun items => sanCleanItems (cleanItems items) = true)
    ?_ ?_ ?_ ?_ ?_ ?_ ?_ ?_ ?_ ?_
  · simp [cleanFields, sanCleanFields]
  · intro k v rest hban ih
    simp at hban
    simp [cleanFields_cons, hban, ih]
  · intro k rest hban hcond fields hty ih1 ih2
    simp at hban hcond
    simp [cleanFields_cons, hban, hcond.1, hcond.2, hty, sanCleanFields, sanCleanVal, ih1, ih2]
  · intro k rest hban hcond fields hty ih
    simp at hban hcond
    simp [cleanFields_cons, hban, hcond.1, hcond.2, hty, ih]
  · intro k v rest hban hcond hobj ih
    simp at hban hcond
    cases v <;>
      first
      | exact absurd rfl (hobj _)
      | simp [cleanFields_cons, hban, hcond.1, hcond.2, ih]
  · intro k rest hban hcond vf ih1 ih2
    simp at hban hcond
    have hcond' : ¬(k ∉ valid_fields ∧ ¬k = "properties") := fun h => h.2 (hcond h.1)
    simp [cleanFields_cons, hban, hcond', sanCleanFields, sanCleanVal, ih1, ih2]
  · intro k rest hban hcond items ih1 ih2
    simp at hban hcond
    have hcond' : ¬(k ∉ valid_fields ∧ ¬k = "properties") := fun h => h.2 (hcond h.1)
    simp [cleanFields_cons, hban, hcond', sanCleanFields, sanCleanVal, ih1, ih2]
  · intro k v rest hban hcond hobj harr ih
    simp at hban hcond
    have hcond' : ¬(k ∉ valid_fields ∧ ¬k = "properties") := fun h => h.2 (hcond h.1)
    cases v <;>
      first
      | exact absurd rfl (hobj _)
      | exact absurd rfl (harr _)
      | simp [cleanFields_cons, hban, hcond', sanCleanFields, sanCleanVal, ih]
  · simp [cleanItems, sanCleanItems]
  · intro item rest hitem ih
    cases item with
    | obj fields =>
      simp only at hitem
      simp [cleanItems_cons, sanCleanItems_cons, hitem, ih]
    | null => simp [cleanItems_cons, sanCleanItems_cons, ih]
    | bool b => simp [cleanItems_cons, sanCleanItems_cons, ih]
    | num n => simp [cleanItems_cons, sanCleanItems_cons, ih]
    | str s => simp [cleanItems_cons, sanCleanItems_cons, ih]
    | arr l => simp [cleanItems_cons, sanCleanItems_cons, ih]

theorem sanClean_entries :
    sanCleanFields [("type", Json.str "object")] = true ∧
    sanCleanFields [("properties", Json.obj [])] = true := by
  constructor <;>
    simp [sanCleanFields, sanCleanVal,
      (by decide : normalizeKey "type" ∉ bannedKeyNorms),
      (by decide : normalizeKey "properties" ∉ bannedKeyNorms)]

/-- Every sanitizer output satisfies the amended cleanliness predicate. -/
theorem sanClean_sanitize (s : Json) :
    ∃ gs, sanitize_gemini_parameters s = Json.obj gs ∧ sanCleanFields gs = true := by
  have hD : sanCleanFields [("type", Json.str "object"), ("properties", Json.obj [])] = true := by
    simp [sanCleanFields, sanCleanVal,
      (by decide : normalizeKey "type" ∉ bannedKeyNorms),
      (by decide : normalizeKey "properties" ∉ bannedKeyNorms)]
  cases s with
  | obj fs =>
    by_cases hne : fs = []
    · subst hne
      exact ⟨_, by simp [sanitize_gemini_parameters], hD⟩
    · have hc := sanClean_cleanFields.1 fs
      set c := cleanFields fs with hcdef
      by_cases hct : Json.hasKey c "type" = true
      · by_cases hcp : Json.hasKey c "properties" = true
        · exact ⟨c, by simp [sanitize_gemini_parameters, hne, ← hcdef, hct, hcp], hc⟩
        · refine ⟨c ++ [("properties", Json.obj [])],
            by simp [sanitize_gemini_parameters, hne, ← hcdef, hct, hcp], ?_⟩
          simp [sanCleanFields_append, hc, sanClean_entries.2]
      · by_cases hcp : Json.hasKey (c ++ [("type", Json.str "object")]) "properties" = true
        · refine ⟨c ++ [("type", Json.str "object")],
            by simp [sanitize_gemini_parameters, hne, ← hcdef, hct, hcp], ?_⟩
          simp [sanCleanFields_append, hc, sanClean_entries.1]
        · refine ⟨c ++ [("type", Json.str "object")] ++ [("properties", Json.obj [])],
            by simp [sanitize_gemini_parameters, hne, ← hcdef, hct, hcp], ?_⟩
          simp [sanCleanFields_append, hc, hD]
  | null => exact ⟨_, by simp [sanitize_gemini_parameters], hD⟩
  | bool b => exact ⟨_, by simp [sanitize_gemini_parameters], hD⟩
  | num n => exact ⟨_, by simp [sanitize_gemini_parameters], hD⟩
  | str s => exact ⟨_, by simp [sanitize_gemini_parameters], hD⟩
  | arr items => exact ⟨_, by simp [sanitize_gemini_parameters], hD⟩

/-- C7 (counterexample) — The claim that the sanitizer removes every
banned key at *every* nesting depth is false: a banned key inside an object
that sits below two levels of array nesting survives, because list items
that are not dicts are copied verbatim. -/
theorem C7_counterexample :
    bannedFreeFull (sanitize_gemini_parameters (Json.obj
      [("items", Json.arr [Json.arr [Json.obj [("additionalProperties", Json.bool true)]]])])) =
      false := by
  have h1 : cleanFields [("additionalProperties", Json.bool true)] = [] := by
    simp [cleanFields_cons, cleanFields,
      (by decide : normalizeKey "additionalProperties" ∈ bannedKeyNorms)]
  simp [sanitize_gemini_parameters, cleanFields_cons, cleanFields, cleanItems_cons, cleanItems,
    Json.hasKey, bannedFreeFull, bannedFreeFields, bannedFreeItems,
    (by decide : normalizeKey "items" ∉ bannedKeyNorms),
    (by decide : "items" ∈ valid_fields),
    (by decide : normalizeKey "additionalProperties" ∈ bannedKeyNorms)]

/-- C7 (amended) — At every nesting depth the sanitizer actually visits
(object values, and object items directly inside an array), every key whose
lower-cased underscore-stripped form is `additionalproperties` or
`additionalitems` is removed; and every non-whitelisted key that is not
itself banned whose value is a map containing a `"type"` key is preserved,
with the cleaner recursing into that value.  (Keys inside arrays nested
within arrays are copied verbatim, and banned keys are removed even when
their value contains a `"type"` key.) -/
theorem C7_sanitizer_strips_and_preserves :
    (∀ params fs, sanitize_gemini_parameters params = Json.obj fs → sanCleanFields fs = true) ∧
    (∀ (pre post : List (String × Json)) (k : String) (vf : List (String × Json)),
      k ∉ valid_fields → normalizeKey k ∉ bannedKeyNorms →
      Json.hasKey vf "type" = true →
      cleanFields (pre ++ (k, Json.obj vf) :: post) =
        cleanFields pre ++ (k, Json.obj (cleanFields vf)) :: cleanFields post) := by
  constructor
  · intro params fs h
    obtain ⟨gs, hout, hcl⟩ := sanClean_sanitize params
    rw [h] at hout
    injection hout with hfs
    rw [hfs]
    exact hcl
  · intro pre post k vf h1 hb hty
    have hk : k ≠ "properties" := fun h => h1 (h ▸ by simp [valid_fields])
    rw [cleanFields_append, cleanFields_cons]
    simp [hb, h1, hk, hty]

/-- Witness for C7 (amended): both parts applied at concrete inputs. -/
theorem C7_sanitizer_witness :
    sanCleanFields [("type", Json.str "object"), ("properties", Json.obj [])] = true ∧
    cleanFields [("custom", Json.obj [("type", Json.str "string")])] =
      cleanFields [] ++ ("custom", Json.obj (cleanFields [("type", Json.str "string")])) ::
        cleanFields [] :=
  ⟨C7_sanitizer_strips_and_preserves.1 (Json.obj []) _ (by simp [sanitize_gemini_parameters]),
   C7_sanitizer_strips_and_preserves.2 [] [] "custom" [("type", Json.str "string")]
     (by decide) (by decide) rfl⟩

/-- C9 — For every `ConversationContext` with `proceed == false`, `run`
returns immediately with the generic cannot-process message as `reply_text`,
the `reason` of the context as `error` (with the `"Unknown error in Step 1"`
default), and `should_notify_admin` forwarded from the context; the empty
effect trace shows that no provider call, retrieval, or tool/network call is
made. -/
theorem C9_gate_short_circuit (env : Env) (context_payload : ContextPayload)
    (user_message openai_api_key google_api_key default_provider db_resource : String)
    (h : context_payload.proceed = false) :
    mainStep2 env context_payload user_message openai_api_key google_api_key
        default_provider db_resource =
      ({ error := some (context_payload.reason.getD "Unknown error in Step 1")
         reply_text := some "Sorry, I\x27m unable to process your message at this time. Please try again later."
         should_notify_admin := some context_payload.notify_admin }, []) := by
  rw [mainStep2]
  simp [h]

/-- Witness for C9 at a concrete blocked context. -/
theorem C9_gate_short_circuit_witness :
    blockedContext.proceed = false ∧
    mainStep2 trivialEnv blockedContext "hola" "" "gk" "google" "db" =
      ({ error := some "User is blocked"
         reply_text := some "Sorry, I\x27m unable to process your message at this time. Please try again later."
         should_notify_admin := some true }, []) :=
  ⟨rfl, C9_gate_short_circuit trivialEnv blockedContext "hola" "" "gk" "google" "db" rfl⟩

/-- C1 (amended) — `execute_tool` resolution order: the canonical list is
consulted FIRST, and a matching definition always takes precedence and is
dispatched by its `_metadata` kind — even when the name is
`search_knowledge_base`, in which case the shape of the built-in entry (no
`_metadata`) yields `{"error": "Unknown tool type: unknown"}` instead of a
Knowledge-Retriever dispatch.  Only when no definition matches does the name
`search_knowledge_base` dispatch to the Knowledge Retriever, and any other
unmatched name returns the error dict naming the missing tool. -/
theorem C1_executor_resolution_order :
    (∀ env args tools cid key db,
      tools.find? (fun t => t.name == "search_knowledge_base") = none →
      execute_tool env "search_knowledge_base" args tools cid key db =
        execute_rag_search env cid (queryArg args) key db) ∧
    (∀ env name args tools cid key db,
      tools.find? (fun t => t.name == name) = none →
      name ≠ "search_knowledge_base" →
      execute_tool env name args tools cid key db =
        (Json.obj [("error", Json.str ("Tool \x27" ++ name ++ "\x27 not found"))], [])) ∧
    (∀ env name args tools t cid key db,
      tools.find? (fun td => td.name == name) = some t →
      t.metadata = none →
      execute_tool env name args tools cid key db =
        (Json.obj [("error", Json.str "Unknown tool type: unknown")], [])) := by
  refine ⟨?_, ?_, ?_⟩
  · intro env args tools cid key db h
    simp [execute_tool, h]
  · intro env name args tools cid key db h hne
    simp [execute_tool, h, hne]
  · intro env name args tools t cid key db h hm
    simp [execute_tool, h, hm]

/-- Witness for C1 (amended): the three resolution arms at concrete inputs. -/
theorem C1_executor_resolution_witness :
    execute_tool trivialEnv "search_knowledge_base" [] [] "cb" "k" "db" =
      execute_rag_search trivialEnv "cb" "" "k" "db" ∧
    execute_tool trivialEnv "ghost_tool" [] [] "cb" "k" "db" =
      (Json.obj [("error", Json.str "Tool \x27ghost_tool\x27 not found")], []) ∧
    execute_tool trivialEnv "search_knowledge_base" [] [builtinSearchTool] "cb" "k" "db" =
      (Json.obj [("error", Json.str "Unknown tool type: unknown")], []) :=
  ⟨C1_executor_resolution_order.1 trivialEnv [] [] "cb" "k" "db" rfl,
   C1_executor_resolution_order.2.1 trivialEnv "ghost_tool" [] [] "cb" "k" "db" rfl
     (by decide),
   C1_executor_resolution_order.2.2 trivialEnv "search_knowledge_base" [] [builtinSearchTool]
     builtinSearchTool "cb" "k" "db" rfl rfl⟩

/-- C1 (counterexample) — With the built-in definition present in the
canonical list — exactly the list `main` produces when RAG is enabled — a
`search_knowledge_base` call is NOT dispatched to the Knowledge Retriever:
the list lookup wins, the entry has no `_metadata`, and the result is
`{"error": "Unknown tool type: unknown"}`, different from the result of the retriever dispatch. -/
theorem C1_counterexample :
    execute_tool trivialEnv "search_knowledge_base" [] [builtinSearchTool] "cb" "k" "db" =
      (Json.obj [("error", Json.str "Unknown tool type: unknown")], []) ∧
    execute_tool trivialEnv "search_knowledge_base" [] [builtinSearchTool] "cb" "k" "db" ≠
      execute_rag_search trivialEnv "cb" "" "k" "db" := by
  refine ⟨rfl, ?_⟩
  intro h
  have hlen := congrArg (fun p => p.2.length) h
  exact absurd hlen (by decide)

/-- C5 (amended) — `execute_tool` never raises to its caller: it is a
total function of the injected outcomes, and every injected exception is
absorbed.  Exceptions of the remote-HTTP path — `Timeout`,
`RequestException`, and any other exception escaping `execute_mcp_tool` —
and of the internal-script path become error dicts; an exception in the
knowledge-search path is absorbed even earlier, inside
`retrieve_knowledge`, so the search returns the empty-result *success* dict
rather than an error dict. -/
theorem C5_executor_never_raises :
    (∀ env name args tools t m url cid key db e,
      tools.find? (fun td => td.name == name) = some t →
      t.metadata = some m → m.tool_type = "mcp" → m.mcp_server_url = some url →
      (∀ ep pl, env.http ep pl = .otherExn e) →
      (execute_tool env name args tools cid key db).1 = Json.obj [("error", Json.str e)]) ∧
    (∀ env name args tools t m url cid key db,
      tools.find? (fun td => td.name == name) = some t →
      t.metadata = some m → m.tool_type = "mcp" → m.mcp_server_url = some url →
      (∀ ep pl, env.http ep pl = .timeout) →
      (execute_tool env name args tools cid key db).1 =
        Json.obj [("error", Json.str "MCP server timeout (30s)")]) ∧
    (∀ env name args tools t m url cid key db e,
      tools.find? (fun td => td.name == name) = some t →
      t.metadata = some m → m.tool_type = "mcp" → m.mcp_server_url = some url →
      (∀ ep pl, env.http ep pl = .requestError e) →
      (execute_tool env name args tools cid key db).1 =
        Json.obj [("error", Json.str ("MCP server error: " ++ e))]) ∧
    (∀ env name args tools t m path cid key db e,
      tools.find? (fun td => td.name == name) = some t →
      t.metadata = some m → m.tool_type = "windmill" → m.script_path = some path →
      (∀ p a, env.windmill p a = .exn e) →
      (execute_tool env name args tools cid key db).1 =
        Json.obj [("error", Json.str ("Windmill script execution failed: " ++ e))]) ∧
    (∀ env cid q key db e,
      (∀ a b c d, env.embedSearch a b c d = .exn e) →
      (execute_rag_search env cid q key db).1 =
        Json.obj [("success", Json.bool true), ("results", Json.arr []),
          ("message", Json.str "No relevant information found in knowledge base.")]) := by
  refine ⟨?_, ?_, ?_, ?_, ?_⟩
  · intro env name args tools t m url cid key db e hf hm ht hu hhttp
    simp [execute_tool, hf, hm, ht, execute_mcp_tool, hu, hhttp]
  · intro env name args tools t m url cid key db hf hm ht hu hhttp
    simp [execute_tool, hf, hm, ht, execute_mcp_tool, hu, hhttp]
  · intro env name args tools t m url cid key db e hf hm ht hu hhttp
    simp [execute_tool, hf, hm, ht, execute_mcp_tool, hu, hhttp]
  · intro env name args tools t m path cid key db e hf hm ht hp hwm
    simp [execute_tool, hf, hm, ht, execute_windmill_tool, hp, hwm]
  · intro env cid q key db e hembed
    by_cases hk : key == ""
    · simp [execute_rag_search, retrieve_knowledge, hk]
    · simp [execute_rag_search, retrieve_knowledge, hk, hembed]

/-- Witness for C5 (amended): each absorption arm at a concrete input. -/
theorem C5_executor_never_raises_witness :
    (execute_tool httpExnEnv "calculate_pricing" [] [mcpTool] "cb" "k" "db").1 =
      Json.obj [("error", Json.str "connection reset")] ∧
    (execute_tool httpTimeoutEnv "calculate_pricing" [] [mcpTool] "cb" "k" "db").1 =
      Json.obj [("error", Json.str "MCP server timeout (30s)")] ∧
    (execute_tool httpReqErrEnv "calculate_pricing" [] [mcpTool] "cb" "k" "db").1 =
      Json.obj [("error", Json.str ("MCP server error: " ++ "502 Bad Gateway"))] ∧
    (execute_tool windmillExnEnv "run_script" [] [windmillTool] "cb" "k" "db").1 =
      Json.obj [("error", Json.str ("Windmill script execution failed: " ++ "script crashed"))] ∧
    (execute_rag_search ragExnEnv "cb" "q" "k" "db").1 =
      Json.obj [("success", Json.bool true), ("results", Json.arr []),
        ("message", Json.str "No relevant information found in knowledge base.")] :=
  ⟨C5_executor_never_raises.1 httpExnEnv "calculate_pricing" [] [mcpTool] mcpTool
     mcpMeta "http://mcp:3001" "cb" "k" "db"
     "connection reset" rfl rfl rfl rfl (fun _ _ => rfl),
   C5_executor_never_raises.2.1 httpTimeoutEnv "calculate_pricing" [] [mcpTool] mcpTool
     mcpMeta "http://mcp:3001" "cb" "k" "db"
     rfl rfl rfl rfl (fun _ _ => rfl),
   C5_executor_never_raises.2.2.1 httpReqErrEnv "calculate_pricing" [] [mcpTool] mcpTool
     mcpMeta "http://mcp:3001" "cb" "k" "db"
     "502 Bad Gateway" rfl rfl rfl rfl (fun _ _ => rfl),
   C5_executor_never_raises.2.2.2.1 windmillExnEnv "run_script" [] [windmillTool] windmillTool
     windmillMeta "f/dev/myscript" "cb" "k" "db"
     "script crashed" rfl rfl rfl rfl (fun _ _ => rfl),
   C5_executor_never_raises.2.2.2.2 ragExnEnv "cb" "q" "k" "db" "embedding down"
     (fun _ _ _ _ => rfl)⟩

/-- Results of the built-in search are always dicts. -/
theorem execute_rag_search_isObj (env : Env) (cid q key db : String) :
    (execute_rag_search env cid q key db).1.isObj = true := by
  rw [execute_rag_search]
  by_cases h : (retrieve_knowledge env cid q key db).1.isEmpty <;> simp [h, Json.isObj]

/-- Results of the internal-script path are always dicts. -/
theorem execute_windmill_tool_isObj (env : Env) (m : ToolMeta)
    (args : List (String × Json)) :
    (execute_windmill_tool env m args).1.isObj = true := by
  rw [execute_windmill_tool]
  cases hp : m.script_path with
  | none => rfl
  | some path =>
    dsimp only
    cases env.windmill path args with
    | ok r => rfl
    | exn e => rfl

/-- Under `dictHttpBodies`, a normally returning MCP execution yields a
dict. -/
theorem execute_mcp_tool_isObj (env : Env) (hd : dictHttpBodies env)
    (name : String) (m : ToolMeta) (args : List (String × Json)) (cid : String) :
    ∀ j effs, execute_mcp_tool env name m args cid = (Outcome.ok j, effs) →
      j.isObj = true := by
  intro j effs heq
  rw [execute_mcp_tool] at heq
  cases hu : m.mcp_server_url with
  | none =>
    rw [hu] at heq
    injection heq with h1 h2
    injection h1 with h3
    rw [← h3]
    rfl
  | some url =>
    rw [hu] at heq
    dsimp only at heq
    cases hh : env.http (rstripSlashes url ++ "/tools/" ++ name) (withChatbotId args cid) with
    | ok body =>
      rw [hh] at heq
      injection heq with h1 h2
      injection h1 with h3
      rw [← h3]
      have h2b := hd (rstripSlashes url ++ "/tools/" ++ name) (withChatbotId args cid)
      rw [hh] at h2b
      exact h2b
    | timeout =>
      rw [hh] at heq
      injection heq with h1 h2
      injection h1 with h3
      rw [← h3]
      rfl
    | requestError msg =>
      rw [hh] at heq
      injection heq with h1 h2
      injection h1 with h3
      rw [← h3]
      rfl
    | otherExn msg =>
      rw [hh] at heq
      injection heq with h1 h2
      exact Outcome.noConfusion h1

/-- Under `dictHttpBodies`, the tool executor always returns a JSON object:
the MCP path forwards a dict body and every other path builds a dict. -/
theorem execute_tool_isObj (env : Env) (hd : dictHttpBodies env)
    (name : String) (args : List (String × Json)) (tools : List ToolDef)
    (cid key db : String) :
    (execute_tool env name args tools cid key db).1.isObj = true := by
  rw [execute_tool]
  cases hf : tools.find? (fun t => t.name == name) with
  | none =>
    dsimp only
    by_cases hskb : (name == "search_knowledge_base") = true
    · simp only [hskb, if_true]
      exact execute_rag_search_isObj env cid (queryArg args) key db
    · simp [hskb, Json.isObj]
  | some t =>
    dsimp only
    cases hm : t.metadata with
    | none => rfl
    | some m =>
      dsimp only
      by_cases hmc : (m.tool_type == "mcp") = true
      · simp only [hmc, if_true]
        cases hmt : execute_mcp_tool env name m args cid with
        | mk o effs =>
          cases o with
          | ok j => exact execute_mcp_tool_isObj env hd name m args cid j effs hmt
          | exn e => rfl
      · simp only [hmc, Bool.false_eq_true, if_false]
        by_cases hw : (m.tool_type == "windmill") = true
        · simp only [hw, if_true]
          exact execute_windmill_tool_isObj env m args
        · simp [hw, Json.isObj]

/-- On a dict the status computation cannot raise. -/
theorem resultStatus_ok_of_isObj {j : Json} (h : j.isObj = true) :
    ∃ s, resultStatus j = Outcome.ok s := by
  cases j <;> first | exact ⟨_, rfl⟩ | exact Bool.noConfusion h

/-- Under `dictHttpBodies`, tool-call processing never aborts and appends
exactly one record per requested call. -/
theorem processOAToolCalls_count (env : Env) (hd : dictHttpBodies env)
    (tools : List ToolDef) (cid key db : String) (it : Nat) :
    ∀ calls msgs,
      (∃ ms, (processOAToolCalls env tools cid key db it calls msgs).1 = Outcome.ok ms) ∧
      (processOAToolCalls env tools cid key db it calls msgs).2.1.length = calls.length := by
  intro calls
  induction calls with
  | nil => intro msgs; exact ⟨⟨msgs, rfl⟩, rfl⟩
  | cons c rest ih =>
    intro msgs
    obtain ⟨s, hs⟩ := resultStatus_ok_of_isObj
      (execute_tool_isObj env hd c.name (c.arguments.getD []) tools cid key db)
    obtain ⟨⟨ms, hms⟩, hlen⟩ := ih
      (msgs ++ [OAMessage.toolResult c.id c.name
        (execute_tool env c.name (c.arguments.getD []) tools cid key db).1])
    constructor
    · refine ⟨ms, ?_⟩
      simp only [processOAToolCalls, hs]
      exact hms
    · simp only [processOAToolCalls, hs]
      simp [hlen]

/-- Gemini analogue of `processOAToolCalls_count`. -/
theorem processGFunctionCalls_count (env : Env) (hd : dictHttpBodies env)
    (tools : List ToolDef) (cid key db : String) (it : Nat) :
    ∀ calls,
      (∃ ps, (processGFunctionCalls env tools cid key db it calls).1 = Outcome.ok ps) ∧
      (processGFunctionCalls env tools cid key db it calls).2.1.length = calls.length := by
  intro calls
  induction calls with
  | nil => exact ⟨⟨[], rfl⟩, rfl⟩
  | cons fc rest ih =>
    obtain ⟨s, hs⟩ := resultStatus_ok_of_isObj
      (execute_tool_isObj env hd fc.name (fc.args.getD []) tools cid key db)
    obtain ⟨⟨ps, hps⟩, hlen⟩ := ih
    constructor
    · refine ⟨(fc.name,
        (execute_tool env fc.name (fc.args.getD []) tools cid key db).1) :: ps, ?_⟩
      simp only [processGFunctionCalls, hs, hps]
    · simp only [processGFunctionCalls, hs]
      simp [hlen]

/-- When the chat-completions provider always requests tool calls, the loop
body consumes all its fuel and reports exhaustion with the final iteration
count. -/
theorem oaLoopGo_always_tools (env : Env) (hd : dictHttpBodies env)
    (model_name : String) (tools : List ToolDef)
    (cid key db : String)
    (h : ∀ msgs, ∃ r, env.openaiChat msgs tools = Outcome.ok r ∧
      r.finish_reason = "tool_calls" ∧ r.tool_calls ≠ []) :
    ∀ fuel msgs execs a b it,
      (oaLoopGo env model_name tools cid key db fuel msgs execs a b it).1.usage_info.max_iterations_reached =
        some true ∧
      (oaLoopGo env model_name tools cid key db fuel msgs execs a b it).1.usage_info.iterations =
        some (it + fuel) := by
  intro fuel
  induction fuel with
  | zero => intro msgs execs a b it; exact ⟨rfl, rfl⟩
  | succ n ih =>
    intro msgs execs a b it
    obtain ⟨r, hr, hfr, htc⟩ := h msgs
    have htc' : r.tool_calls.isEmpty = false := by
      cases hc : r.tool_calls with
      | nil => exact absurd hc htc
      | cons x xs => rfl
    have hcond : (r.finish_reason == "tool_calls" && !r.tool_calls.isEmpty) = true := by
      rw [hfr, htc']; rfl
    obtain ⟨⟨ms, hms⟩, hlen⟩ := processOAToolCalls_count env hd tools cid key db (it + 1)
      r.tool_calls (msgs ++ [OAMessage.assistantToolCalls r.content r.tool_calls])
    simp only [oaLoopGo, hr, hcond, if_true, hms]
    exact ⟨(ih _ _ _ _ _).1, by rw [(ih _ _ _ _ _).2]; congr 1; omega⟩

/-- Gemini analogue of `oaLoopGo_always_tools`. -/
theorem gLoopGo_always_tools (env : Env) (hd : dictHttpBodies env)
    (model_name : String) (tools : List ToolDef)
    (decls : List GFuncDecl) (cid key db fe fl : String)
    (h : ∀ msgs, ∃ r, env.geminiGen msgs decls = Outcome.ok r ∧ r.function_calls ≠ []) :
    ∀ fuel msgs execs a b it,
      (gLoopGo env model_name tools decls cid key db fe fl fuel msgs execs a b it).1.usage_info.max_iterations_reached =
        some true ∧
      (gLoopGo env model_name tools decls cid key db fe fl fuel msgs execs a b it).1.usage_info.iterations =
        some (it + fuel) := by
  intro fuel
  induction fuel with
  | zero => intro msgs execs a b it; exact ⟨rfl, rfl⟩
  | succ n ih =>
    intro msgs execs a b it
    obtain ⟨r, hr, hfc⟩ := h msgs
    have hfc' : r.function_calls.isEmpty = false := by
      cases hc : r.function_calls with
      | nil => exact absurd hc hfc
      | cons x xs => rfl
    have hcond : (!r.function_calls.isEmpty) = true := by rw [hfc']; rfl
    obtain ⟨⟨ps, hps⟩, hlen⟩ := processGFunctionCalls_count env hd tools cid key db (it + 1)
      r.function_calls
    simp only [gLoopGo, hr, hcond, if_true, hps]
    exact ⟨(ih _ _ _ _ _).1, by rw [(ih _ _ _ _ _).2]; congr 1; omega⟩

/-- C4 (amended) — For every provider whose responses always request at
least one tool call (and never raise), provided additionally every 2xx MCP
response body in the environment is a JSON object — so that no
per-iteration status computation raises — each agent loop terminates after
exactly `max_iterations` iterations and returns a result whose usage
carries `max_iterations_reached = true` and `iterations == max_iterations`. -/
theorem C4_max_iterations_termination :
    (∀ env model_name messages tools cid temp key db n,
      dictHttpBodies env →
      (∀ msgs, ∃ r, env.openaiChat msgs tools = Outcome.ok r ∧
        r.finish_reason = "tool_calls" ∧ r.tool_calls ≠ []) →
      (execute_agent_loop_openai env model_name messages tools cid temp key db
          n).1.usage_info.max_iterations_reached = some true ∧
      (execute_agent_loop_openai env model_name messages tools cid temp key db
          n).1.usage_info.iterations = some n) ∧
    (∀ env model_name sys um hist tools cid temp key db fe fl n,
      dictHttpBodies env →
      (∀ msgs ds, ∃ r, env.geminiGen msgs ds = Outcome.ok r ∧ r.function_calls ≠ []) →
      (execute_agent_loop_gemini env model_name sys um hist tools cid temp key db fe fl
          n).1.usage_info.max_iterations_reached = some true ∧
      (execute_agent_loop_gemini env model_name sys um hist tools cid temp key db fe fl
          n).1.usage_info.iterations = some n) := by
  constructor
  · intro env model_name messages tools cid temp key db n hd h
    have := oaLoopGo_always_tools env hd model_name tools cid key db h n messages [] 0 0 0
    simpa [execute_agent_loop_openai] using this
  · intro env model_name sys um hist tools cid temp key db fe fl n hd h
    have h2 := gLoopGo_always_tools env hd model_name tools
      (tools.map (fun t =>
        GFuncDecl.mk t.name t.description (sanitize_gemini_parameters t.parameters)))
      cid key db fe fl (fun msgs => h msgs _) n
      (hist ++ [GContent.textContent "user" (sys ++ "\n\nUser Message: " ++ um)]) [] 0 0 0
    simpa [execute_agent_loop_gemini] using h2

/-- Witness for C4 (amended): both loops at `max_iterations = 3` under a
provider that always requests a tool call, over dict-only MCP bodies. -/
theorem C4_max_iterations_termination_witness :
    ((execute_agent_loop_openai alwaysToolsEnv "gpt-4o" [] [] "cb" 1 "k" "db"
        3).1.usage_info.max_iterations_reached = some true ∧
     (execute_agent_loop_openai alwaysToolsEnv "gpt-4o" [] [] "cb" 1 "k" "db"
        3).1.usage_info.iterations = some 3) ∧
    ((execute_agent_loop_gemini alwaysToolsEnv "gemini-pro" "sys" "q" [] [] "cb" 1 "k" "db"
        "E" "L" 3).1.usage_info.max_iterations_reached = some true ∧
     (execute_agent_loop_gemini alwaysToolsEnv "gemini-pro" "sys" "q" [] [] "cb" 1 "k" "db"
        "E" "L" 3).1.usage_info.iterations = some 3) :=
  ⟨C4_max_iterations_termination.1 alwaysToolsEnv "gpt-4o" [] [] "cb" 1 "k" "db" 3
     (fun _ _ => rfl) (fun _ => ⟨_, rfl, rfl, by simp⟩),
   C4_max_iterations_termination.2 alwaysToolsEnv "gemini-pro" "sys" "q" [] [] "cb" 1 "k" "db"
     "E" "L" 3 (fun _ _ => rfl) (fun _ _ => ⟨_, rfl, by simp⟩)⟩

/-- C4 (counterexample) — a provider that always requests one tool call and
never raises, yet the chat-completions loop does NOT run to
`max_iterations`: the requested MCP tool returns a non-dict 2xx body, the
status computation raises `AttributeError` at iteration 1, and the loop
returns through its exception arm with `iterations = 1` and no
`max_iterations_reached` key. -/
theorem C4_counterexample :
    (∀ msgs, ∃ r, nonDictToolEnv.openaiChat msgs [mcpTool] = Outcome.ok r ∧
      r.finish_reason = "tool_calls" ∧ r.tool_calls ≠ []) ∧
    (execute_agent_loop_openai nonDictToolEnv "gpt-4o" [] [mcpTool] "cb" 1 "k" "db"
        5).1.usage_info.max_iterations_reached = none ∧
    (execute_agent_loop_openai nonDictToolEnv "gpt-4o" [] [mcpTool] "cb" 1 "k" "db"
        5).1.usage_info.iterations = some 1 ∧
    (execute_agent_loop_openai nonDictToolEnv "gpt-4o" [] [mcpTool] "cb" 1 "k" "db"
        5).1.usage_info.error = some "\x27list\x27 object has no attribute \x27get\x27" :=
  ⟨fun _ => ⟨_, rfl, rfl, by simp⟩, rfl, rfl, rfl⟩

/-- Under `dictHttpBodies`, the chat-completions loop records exactly one
`ToolExecutionRecord` per issued tool-call request, and reports that count
as `usage.tool_calls`. -/
theorem oaLoopGo_trace (env : Env) (hd : dictHttpBodies env)
    (model_name : String) (tools : List ToolDef)
    (cid key db : String) :
    ∀ fuel msgs execs a b it,
      (oaLoopGo env model_name tools cid key db fuel msgs execs a b it).1.tool_executions.length =
        execs.length + oaIssuedCalls env tools cid key db fuel msgs it ∧
      (oaLoopGo env model_name tools cid key db fuel msgs execs a b it).1.usage_info.tool_calls =
        some (oaLoopGo env model_name tools cid key db fuel msgs execs a b it).1.tool_executions.length := by
  intro fuel
  induction fuel with
  | zero => intro msgs execs a b it; simp [oaLoopGo, oaIssuedCalls]
  | succ n ih =>
    intro msgs execs a b it
    cases hr : env.openaiChat msgs tools with
    | exn e => simp [oaLoopGo, oaIssuedCalls, hr]
    | ok r =>
      by_cases hcond : (r.finish_reason == "tool_calls" && !r.tool_calls.isEmpty) = true
      · obtain ⟨⟨ms, hms⟩, hlen⟩ := processOAToolCalls_count env hd tools cid key db (it + 1)
          r.tool_calls (msgs ++ [OAMessage.assistantToolCalls r.content r.tool_calls])
        simp only [oaLoopGo, oaIssuedCalls, hr, hcond, if_true, hms]
        refine ⟨?_, (ih _ _ _ _ _).2⟩
        rw [(ih _ _ _ _ _).1]
        simp only [List.length_append, hlen]
        omega
      · simp only [oaLoopGo, oaIssuedCalls, hr, hcond, if_false]
        by_cases hs : (r.finish_reason == "stop") = true <;> simp [hs]
  -- (the exhausted, error, stop and unexpected exits all set
  -- `tool_calls := some tool_executions.length`)

/-- Gemini analogue of `oaLoopGo_trace`. -/
theorem gLoopGo_trace (env : Env) (hd : dictHttpBodies env)
    (model_name : String) (tools : List ToolDef)
    (decls : List GFuncDecl) (cid key db fe fl : String) :
    ∀ fuel msgs execs a b it,
      (gLoopGo env model_name tools decls cid key db fe fl fuel msgs execs a b it).1.tool_executions.length =
        execs.length + gIssuedCalls env tools decls cid key db fuel msgs it ∧
      (gLoopGo env model_name tools decls cid key db fe fl fuel msgs execs a b it).1.usage_info.tool_calls =
        some (gLoopGo env model_name tools decls cid key db fe fl fuel msgs execs a b it).1.tool_executions.length := by
  intro fuel
  induction fuel with
  | zero => intro msgs execs a b it; simp [gLoopGo, gIssuedCalls]
  | succ n ih =>
    intro msgs execs a b it
    cases hr : env.geminiGen msgs decls with
    | exn e => simp [gLoopGo, gIssuedCalls, hr]
    | ok r =>
      by_cases hcond : (!r.function_calls.isEmpty) = true
      · have hemp : r.function_calls.isEmpty = false := by
          cases hfc : r.function_calls.isEmpty
          · rfl
          · rw [hfc] at hcond; simp at hcond
        obtain ⟨⟨ps, hps⟩, hlen⟩ := processGFunctionCalls_count env hd tools cid key db
          (it + 1) r.function_calls
        simp only [gLoopGo, gIssuedCalls, hr, hcond, hemp, Bool.not_false,
          eq_self_iff_true, if_true, if_false, hps]
        refine ⟨?_, (ih _ _ _ _ _).2⟩
        rw [(ih _ _ _ _ _).1]
        simp only [List.length_append, hlen]
        omega
      · have hemp : r.function_calls.isEmpty = true := by
          cases hfc : r.function_calls.isEmpty
          · rw [hfc] at hcond; simp at hcond
          · rfl
        simp [gLoopGo, gIssuedCalls, hr, hemp]

/-- C8 (amended) — Provided every 2xx MCP response body in the environment
is a JSON object (so that no per-iteration status computation raises), in
every completed agent-loop run of either provider loop the returned
`ToolExecutionRecord` list contains exactly one record per tool-call
request issued by the provider across all iterations — its length equals
the replayed total number of requests — and `usage.tool_calls` equals that
length. -/
theorem C8_tool_trace_completeness :
    (∀ env model_name messages tools cid temp key db n,
      dictHttpBodies env →
      (execute_agent_loop_openai env model_name messages tools cid temp key db
          n).1.tool_executions.length =
        oaIssuedCalls env tools cid key db n messages 0 ∧
      (execute_agent_loop_openai env model_name messages tools cid temp key db
          n).1.usage_info.tool_calls =
        some (execute_agent_loop_openai env model_name messages tools cid temp key db
          n).1.tool_executions.length) ∧
    (∀ env model_name sys um hist tools cid temp key db fe fl n,
      dictHttpBodies env →
      (execute_agent_loop_gemini env model_name sys um hist tools cid temp key db fe fl
          n).1.tool_executions.length =
        gIssuedCalls env tools
          (tools.map (fun t =>
            GFuncDecl.mk t.name t.description (sanitize_gemini_parameters t.parameters)))
          cid key db n
          (hist ++ [GContent.textContent "user" (sys ++ "\n\nUser Message: " ++ um)]) 0 ∧
      (execute_agent_loop_gemini env model_name sys um hist tools cid temp key db fe fl
          n).1.usage_info.tool_calls =
        some (execute_agent_loop_gemini env model_name sys um hist tools cid temp key db fe fl
          n).1.tool_executions.length) := by
  constructor
  · intro env model_name messages tools cid temp key db n hd
    have h := oaLoopGo_trace env hd model_name tools cid key db n messages [] 0 0 0
    simpa [execute_agent_loop_openai] using h
  · intro env model_name sys um hist tools cid temp key db fe fl n hd
    have h := gLoopGo_trace env hd model_name tools
      (tools.map (fun t =>
        GFuncDecl.mk t.name t.description (sanitize_gemini_parameters t.parameters)))
      cid key db fe fl n
      (hist ++ [GContent.textContent "user" (sys ++ "\n\nUser Message: " ++ um)]) [] 0 0 0
    simpa [execute_agent_loop_gemini] using h

/-- Witness for C8 (amended): the 2+1 example — two calls in the first
iteration, one in the second, three records, `usage.tool_calls = 3`. -/
theorem C8_tool_trace_completeness_witness :
    ((execute_agent_loop_openai twoOneEnv "gpt-4o" [OAMessage.raw "user" "hi"] [] "cb" 1 "k"
        "db" 5).1.tool_executions.length =
      oaIssuedCalls twoOneEnv [] "cb" "k" "db" 5 [OAMessage.raw "user" "hi"] 0 ∧
     (execute_agent_loop_openai twoOneEnv "gpt-4o" [OAMessage.raw "user" "hi"] [] "cb" 1 "k"
        "db" 5).1.usage_info.tool_calls =
      some (execute_agent_loop_openai twoOneEnv "gpt-4o" [OAMessage.raw "user" "hi"] [] "cb"
        1 "k" "db" 5).1.tool_executions.length) ∧
    oaIssuedCalls twoOneEnv [] "cb" "k" "db" 5 [OAMessage.raw "user" "hi"] 0 = 3 :=
  ⟨C8_tool_trace_completeness.1 twoOneEnv "gpt-4o" [OAMessage.raw "user" "hi"] [] "cb" 1 "k"
    "db" 5 (fun _ _ => rfl), rfl⟩

/-- C8 (counterexample) — a run in which the provider issues one tool-call
request but the returned record list is empty: the requested MCP tool
returns a non-dict 2xx body, so the iteration aborts before appending the
record for it, and `usage.tool_calls` is `0` while one request was issued. -/
theorem C8_counterexample :
    oaIssuedCalls nonDictToolEnv [mcpTool] "cb" "k" "db" 5 [] 0 = 1 ∧
    (execute_agent_loop_openai nonDictToolEnv "gpt-4o" [] [mcpTool] "cb" 1 "k" "db"
        5).1.tool_executions.length = 0 ∧
    (execute_agent_loop_openai nonDictToolEnv "gpt-4o" [] [mcpTool] "cb" 1 "k" "db"
        5).1.usage_info.tool_calls = some 0 :=
  ⟨rfl, rfl, rfl⟩

theorem isEmpty_append_singleton {α : Type} (xs : List α) (x : α) :
    (xs ++ [x]).isEmpty = false := by
  cases xs <;> rfl

theorem ragContextBlock_ne_empty (chunks : List Chunk) : ragContextBlock chunks ≠ "" := by
  intro h
  have hl := congrArg String.length h
  rw [ragContextBlock] at hl
  rw [show ("" : String).length = 0 from rfl] at hl
  simp only [String.length_append] at hl
  have hpos :
      0 < ("Use the following information to answer the user\x27s question. " : String).length := by
    decide
  omega

/-- The orchestrator `rag_used` flag (`bool(rag_context)`) equals "at
least one chunk was retrieved". -/
theorem rag_context_flag (chunks : List Chunk) :
    ((if chunks.isEmpty then "" else ragContextBlock chunks) != "") = !chunks.isEmpty := by
  by_cases h : chunks.isEmpty = true
  · simp [h]
  · simp only [Bool.not_eq_true] at h
    simp [h, bne_iff_ne, ragContextBlock_ne_empty chunks]

/-- C2 (amended) — Whenever retrieval is enabled, EVERY `usage_info` the
orchestrator returns — on any provider path, loop or single-shot — carries
`rag_used` = (at least one chunk was actually retrieved), NOT "the feature
was invoked": the orchestrator sets `rag_used = bool(rag_context)`, which is
`false` whenever the retriever returned zero chunks (e.g. when the embedding
call raised), while `chunks_retrieved` carries the retrieved-chunk count. -/
theorem C2_rag_used_reflects_chunks (env : Env) (ctx : ContextPayload)
    (um k1 k2 dp db : String) (u : UsageInfo)
    (hrag : ctx.chatbot.rag_enabled = true)
    (hu : (mainStep2 env ctx um k1 k2 dp db).1.usage_info = some u) :
    u.rag_used = some (!(retrieve_knowledge env ctx.chatbot.id um k1 db).1.isEmpty) ∧
    u.chunks_retrieved = some (retrieve_knowledge env ctx.chatbot.id um k1 db).1.length := by
  rw [mainStep2] at hu
  by_cases hpr : ctx.proceed = true
  · cases hg : strContains (pyLower (ctx.chatbot.model_name.getD "")) "gemini" with
    | true =>
      simp only [hpr, hrag, hg, Bool.not_true, Bool.false_eq_true, Bool.not_false, if_false,
        if_true, isEmpty_append_singleton, reduceIte,
        show (("google" : String) == "openai") = false from rfl,
        show (("google" : String) == "google") = true from rfl] at hu
      cases hk : (k2 == "") with
      | true => rw [hk] at hu; simp at hu
      | false =>
        rw [hk] at hu
        simp only [Bool.false_eq_true, if_false] at hu
        cases hu
        exact ⟨by simp [rag_context_flag], rfl⟩
    | false =>
      cases hgpt : strContains (pyLower (ctx.chatbot.model_name.getD "")) "gpt" with
      | true =>
        simp only [hpr, hrag, hg, hgpt, Bool.not_true, Bool.false_eq_true, Bool.not_false,
          if_false, if_true, isEmpty_append_singleton, reduceIte,
          show (("openai" : String) == "openai") = true from rfl] at hu
        cases hk : (k1 == "") with
        | true => rw [hk] at hu; simp at hu
        | false =>
          rw [hk] at hu
          simp only [Bool.false_eq_true, if_false] at hu
          cases hu
          exact ⟨by simp [rag_context_flag], rfl⟩
      | false =>
        simp only [hpr, hrag, hg, hgpt, Bool.not_true, Bool.false_eq_true, Bool.not_false,
          if_false, if_true, isEmpty_append_singleton, reduceIte] at hu
        cases hdo : (dp == "openai") with
        | true =>
          rw [hdo] at hu
          simp only [if_true] at hu
          cases hk : (k1 == "") with
          | true => rw [hk] at hu; simp at hu
          | false =>
            rw [hk] at hu
            simp only [Bool.false_eq_true, if_false] at hu
            cases hu
            exact ⟨by simp [rag_context_flag], rfl⟩
        | false =>
          rw [hdo] at hu
          simp only [Bool.false_eq_true, if_false] at hu
          cases hdg : (dp == "google") with
          | true =>
            rw [hdg] at hu
            simp only [if_true] at hu
            cases hk : (k2 == "") with
            | true => rw [hk] at hu; simp at hu
            | false =>
              rw [hk] at hu
              simp only [Bool.false_eq_true, if_false] at hu
              cases hu
              exact ⟨by simp [rag_context_flag], rfl⟩
          | false =>
            rw [hdg] at hu
            simp at hu
  · simp only [Bool.not_eq_true] at hpr
    rw [hpr] at hu
    simp at hu

/-- Witness for C2 (amended): a RAG-enabled chat-completions (OpenAI) run
whose retrieval fails — `rag_used` comes back `false` with
`chunks_retrieved = 0`. -/
theorem C2_rag_used_reflects_chunks_witness :
    ∃ u, (mainStep2 ragDownOpenaiEnv ragOpenaiContext "q" "openai-key" "google-key"
        "google" "db").1.usage_info = some u ∧
      u.rag_used = some (!(retrieve_knowledge ragDownOpenaiEnv ragOpenaiContext.chatbot.id
        "q" "openai-key" "db").1.isEmpty) ∧
      u.chunks_retrieved = some (retrieve_knowledge ragDownOpenaiEnv
        ragOpenaiContext.chatbot.id "q" "openai-key" "db").1.length :=
  ⟨_, rfl,
   C2_rag_used_reflects_chunks ragDownOpenaiEnv ragOpenaiContext "q" "openai-key" "google-key"
     "google" "db" _ rfl rfl⟩

/-- C2 (counterexample) — RAG is enabled, the embedding call raises, the
retriever returns zero chunks — and the returned `usage_info` carries
`rag_used = false` (the claim asserts it stays `true`), with
`chunks_retrieved = 0`. -/
theorem C2_counterexample :
    ∃ u, (mainStep2 ragDownGeminiEnv ragGeminiContext "q" "openai-key" "google-key"
        "google" "db").1.usage_info = some u ∧
      u.rag_used = some false ∧ u.chunks_retrieved = some 0 :=
  ⟨_, rfl, rfl, rfl⟩

/-- C3 (amended) — Quota classification (an exception whose lower-cased
message contains `quota`/`limit`/`rate`/`exhausted`/`429` yields
`is_limit_error = true` and the configured `fallback_message_limit`, any
other exception the configured `fallback_message_error`) holds on the
single-shot path of BOTH resolved providers and on the
content/candidate-style (Gemini) agent loop.  The chat-completion-style
(OpenAI) agent loop does NOT classify: every provider exception there
yields the fixed message "I encountered an error while processing your
request." with no `is_limit_error` key at all. -/
theorem C3_quota_classification :
    (∀ env ctx um k1 k2 dp db e,
      ctx.proceed = true → ctx.chatbot.rag_enabled = false → ctx.tools = [] →
      (if strContains (pyLower (ctx.chatbot.model_name.getD "")) "gemini" then "google"
       else if strContains (pyLower (ctx.chatbot.model_name.getD "")) "gpt" then "openai"
       else dp) = "google" →
      (k2 == "") = false →
      (∀ msgs ds, env.geminiGen msgs ds = Outcome.exn e) →
      (mainStep2 env ctx um k1 k2 dp db).1.reply_text =
        some (if isLimitErrorMsg e then ctx.chatbot.fallback_message_limit.getD defaultFallbackLimit
          else ctx.chatbot.fallback_message_error.getD defaultFallbackError) ∧
      ∃ u, (mainStep2 env ctx um k1 k2 dp db).1.usage_info = some u ∧
        u.is_limit_error = some (isLimitErrorMsg e) ∧ u.error = some e) ∧
    (∀ env ctx um k1 k2 dp db e,
      ctx.proceed = true → ctx.chatbot.rag_enabled = false → ctx.tools = [] →
      (if strContains (pyLower (ctx.chatbot.model_name.getD "")) "gemini" then "google"
       else if strContains (pyLower (ctx.chatbot.model_name.getD "")) "gpt" then "openai"
       else dp) = "openai" →
      (k1 == "") = false →
      (∀ msgs ts, env.openaiChat msgs ts = Outcome.exn e) →
      (mainStep2 env ctx um k1 k2 dp db).1.reply_text =
        some (if isLimitErrorMsg e then ctx.chatbot.fallback_message_limit.getD defaultFallbackLimit
          else ctx.chatbot.fallback_message_error.getD defaultFallbackError) ∧
      ∃ u, (mainStep2 env ctx um k1 k2 dp db).1.usage_info = some u ∧
        u.is_limit_error = some (isLimitErrorMsg e) ∧ u.error = some e) ∧
    (∀ env model_name sys um hist tools cid temp key db fe fl n e,
      0 < n →
      (∀ msgs ds, env.geminiGen msgs ds = Outcome.exn e) →
      (execute_agent_loop_gemini env model_name sys um hist tools cid temp key db fe fl
          n).1.reply_text = some (if isLimitErrorMsg e then fl else fe) ∧
      (execute_agent_loop_gemini env model_name sys um hist tools cid temp key db fe fl
          n).1.usage_info.is_limit_error = some (isLimitErrorMsg e) ∧
      (execute_agent_loop_gemini env model_name sys um hist tools cid temp key db fe fl
          n).1.usage_info.error = some e) ∧
    (∀ env model_name messages tools cid temp key db n e,
      0 < n →
      (∀ msgs ts, env.openaiChat msgs ts = Outcome.exn e) →
      (execute_agent_loop_openai env model_name messages tools cid temp key db
          n).1.reply_text = some "I encountered an error while processing your request." ∧
      (execute_agent_loop_openai env model_name messages tools cid temp key db
          n).1.usage_info.is_limit_error = none ∧
      (execute_agent_loop_openai env model_name messages tools cid temp key db
          n).1.usage_info.error = some e) := by
  refine ⟨?_, ?_, ?_, ?_⟩
  · intro env ctx um k1 k2 dp db e hpr hrag htools hprov hkey hexn
    rw [mainStep2]
    simp only [hpr, hrag, hprov, hkey, htools, Bool.not_true, Bool.false_eq_true, if_false,
      if_true, reduceIte, prepare_tool_definitions, List.filterMap_nil, List.isEmpty_nil,
      Bool.not_true, hexn,
      show (("google" : String) == "openai") = false from rfl,
      show (("google" : String) == "google") = true from rfl]
    exact ⟨rfl, _, rfl, rfl, rfl⟩
  · intro env ctx um k1 k2 dp db e hpr hrag htools hprov hkey hexn
    rw [mainStep2]
    simp only [hpr, hrag, hprov, hkey, htools, Bool.not_true, Bool.false_eq_true, if_false,
      if_true, reduceIte, prepare_tool_definitions, List.filterMap_nil, List.isEmpty_nil,
      Bool.not_true, hexn,
      show (("openai" : String) == "openai") = true from rfl]
    exact ⟨rfl, _, rfl, rfl, rfl⟩
  · intro env model_name sys um hist tools cid temp key db fe fl n e hn hexn
    cases n with
    | zero => omega
    | succ m =>
      rw [execute_agent_loop_gemini]
      simp only [gLoopGo, hexn]
      simp
  · intro env model_name messages tools cid temp key db n e hn hexn
    cases n with
    | zero => omega
    | succ m =>
      rw [execute_agent_loop_openai]
      simp only [oaLoopGo, hexn]
      simp

/-- Witness for C3 (amended): all four paths at a quota-style message. -/
theorem C3_quota_classification_witness :
    ((mainStep2 geminiQuotaExnEnv noRagGeminiContext "hi" "" "gk" "google" "db").1.reply_text =
        some (if isLimitErrorMsg "429 Quota exceeded" then
          noRagGeminiContext.chatbot.fallback_message_limit.getD defaultFallbackLimit
        else noRagGeminiContext.chatbot.fallback_message_error.getD defaultFallbackError) ∧
      ∃ u, (mainStep2 geminiQuotaExnEnv noRagGeminiContext "hi" "" "gk" "google"
          "db").1.usage_info = some u ∧
        u.is_limit_error = some (isLimitErrorMsg "429 Quota exceeded") ∧
        u.error = some "429 Quota exceeded") ∧
    ((mainStep2 openaiQuotaExnEnv noRagOpenaiContext "hi" "sk" "" "google" "db").1.reply_text =
        some (if isLimitErrorMsg "429 Quota exceeded" then
          noRagOpenaiContext.chatbot.fallback_message_limit.getD defaultFallbackLimit
        else noRagOpenaiContext.chatbot.fallback_message_error.getD defaultFallbackError) ∧
      ∃ u, (mainStep2 openaiQuotaExnEnv noRagOpenaiContext "hi" "sk" "" "google"
          "db").1.usage_info = some u ∧
        u.is_limit_error = some (isLimitErrorMsg "429 Quota exceeded") ∧
        u.error = some "429 Quota exceeded") ∧
    ((execute_agent_loop_gemini geminiQuotaExnEnv "gemini-pro" "sys" "q" [] [] "cb" 1 "k" "db"
        "E" "L" 5).1.reply_text = some (if isLimitErrorMsg "429 Quota exceeded" then "L" else "E")) ∧
    ((execute_agent_loop_openai openaiQuotaExnEnv "gpt-4o" [] [] "cb" 1 "k" "db"
        5).1.usage_info.is_limit_error = none) :=
  ⟨C3_quota_classification.1 geminiQuotaExnEnv noRagGeminiContext "hi" "" "gk" "google" "db"
     "429 Quota exceeded" rfl rfl rfl rfl rfl (fun _ _ => rfl),
   C3_quota_classification.2.1 openaiQuotaExnEnv noRagOpenaiContext "hi" "sk" "" "google" "db"
     "429 Quota exceeded" rfl rfl rfl rfl rfl (fun _ _ => rfl),
   (C3_quota_classification.2.2.1 geminiQuotaExnEnv "gemini-pro" "sys" "q" [] [] "cb" 1 "k" "db"
     "E" "L" 5 "429 Quota exceeded" (by omega) (fun _ _ => rfl)).1,
   (C3_quota_classification.2.2.2 openaiQuotaExnEnv "gpt-4o" [] [] "cb" 1 "k" "db" 5
     "429 Quota exceeded" (by omega) (fun _ _ => rfl)).2.1⟩

/-- C3 (counterexample) — A quota-style provider exception
(`"429 Quota exceeded"`) inside the chat-completion-style agent loop does
NOT select the chatbot-configured `fallback_message_limit` (`"LIMIT-MSG"`)
and carries no `is_limit_error` key: the loop returns its fixed generic
error message. -/
theorem C3_counterexample :
    isLimitErrorMsg "429 Quota exceeded" = true ∧
    (mainStep2 openaiQuotaExnEnv ragOpenaiContext "hi" "openai-key" "gk" "google"
        "db").1.reply_text = some "I encountered an error while processing your request." ∧
    (mainStep2 openaiQuotaExnEnv ragOpenaiContext "hi" "openai-key" "gk" "google"
        "db").1.reply_text ≠ some "LIMIT-MSG" ∧
    ∃ u, (mainStep2 openaiQuotaExnEnv ragOpenaiContext "hi" "openai-key" "gk" "google"
        "db").1.usage_info = some u ∧
      u.is_limit_error = none ∧ u.error = some "429 Quota exceeded" :=
  ⟨rfl, rfl, by decide, _, rfl, rfl, rfl⟩

/-- Every embedding effect of `retrieve_knowledge` carries exactly the
credential it was handed. -/
theorem retrieve_knowledge_embed_key (env : Env) (cid q key db : String) :
    ∀ e ∈ (retrieve_knowledge env cid q key db).2, ∀ k qq,
      e = Effect.embeddingCall k qq → k = key := by
  intro e he k qq heq
  rw [retrieve_knowledge] at he
  by_cases hk : (key == "") = true
  · simp [hk] at he
  · simp only [hk, Bool.false_eq_true, if_false] at he
    cases henv : env.embedSearch cid q key db with
    | ok chunks =>
      rw [henv] at he
      simp at he
      rw [he] at heq
      injection heq with h1 h2
      exact h1.symm
    | exn m =>
      rw [henv] at he
      simp at he
      rw [he] at heq
      injection heq with h1 h2
      exact h1.symm

theorem execute_rag_search_effects (env : Env) (cid q key db : String) :
    (execute_rag_search env cid q key db).2 = (retrieve_knowledge env cid q key db).2 := by
  rw [execute_rag_search]
  by_cases h : (retrieve_knowledge env cid q key db).1.isEmpty <;> simp [h]

theorem execute_mcp_tool_no_embed (env : Env) (name : String) (m : ToolMeta)
    (args : List (String × Json)) (cid : String) :
    ∀ e ∈ (execute_mcp_tool env name m args cid).2, ∀ k q,
      e ≠ Effect.embeddingCall k q := by
  intro e he k q
  rw [execute_mcp_tool] at he
  cases hu : m.mcp_server_url with
  | none => rw [hu] at he; simp at he
  | some url =>
    rw [hu] at he
    dsimp only at he
    cases hh : env.http (rstripSlashes url ++ "/tools/" ++ name) (withChatbotId args cid) with
    | ok body => rw [hh] at he; simp at he; simp [he]
    | timeout => rw [hh] at he; simp at he; simp [he]
    | requestError msg => rw [hh] at he; simp at he; simp [he]
    | otherExn msg => rw [hh] at he; simp at he; simp [he]

theorem execute_windmill_tool_no_embed (env : Env) (m : ToolMeta)
    (args : List (String × Json)) :
    ∀ e ∈ (execute_windmill_tool env m args).2, ∀ k q,
      e ≠ Effect.embeddingCall k q := by
  intro e he k q
  rw [execute_windmill_tool] at he
  cases hp : m.script_path with
  | none => rw [hp] at he; simp at he
  | some path =>
    rw [hp] at he
    dsimp only at he
    cases hw : env.windmill path args with
    | ok r => rw [hw] at he; simp at he; simp [he]
    | exn m2 => rw [hw] at he; simp at he; simp [he]

/-- Every embedding effect produced by `execute_tool` carries the credential
passed in its `openai_api_key` parameter position. -/
theorem execute_tool_embed_key (env : Env) (name : String) (args : List (String × Json))
    (tools : List ToolDef) (cid key db : String) :
    ∀ e ∈ (execute_tool env name args tools cid key db).2, ∀ k q,
      e = Effect.embeddingCall k q → k = key := by
  intro e he k q heq
  rw [execute_tool] at he
  cases hf : tools.find? (fun t => t.name == name) with
  | none =>
    rw [hf] at he
    dsimp only at he
    by_cases hskb : (name == "search_knowledge_base") = true
    · simp only [hskb, if_true] at he
      rw [execute_rag_search_effects] at he
      exact retrieve_knowledge_embed_key env cid (queryArg args) key db e he k q heq
    · simp [hskb] at he
  | some t =>
    rw [hf] at he
    dsimp only at he
    cases hm : t.metadata with
    | none => rw [hm] at he; simp at he
    | some m =>
      rw [hm] at he
      by_cases hmc : (m.tool_type == "mcp") = true
      · simp only [hmc, if_true] at he
        have hme : ∀ e2 ∈ (execute_mcp_tool env name m args cid).2, ∀ k2 q2,
            e2 ≠ Effect.embeddingCall k2 q2 := execute_mcp_tool_no_embed env name m args cid
        rcases hmt : execute_mcp_tool env name m args cid with ⟨o, effs⟩
        rw [hmt] at he
        cases o with
        | ok j =>
          simp only at he
          have := hme e (by rw [hmt]; exact he) k q
          exact absurd heq this
        | exn msg =>
          simp only at he
          have := hme e (by rw [hmt]; exact he) k q
          exact absurd heq this
      · simp only [hmc, Bool.false_eq_true, if_false] at he
        by_cases hw : (m.tool_type == "windmill") = true
        · simp only [hw, if_true] at he
          exact absurd heq (execute_windmill_tool_no_embed env m args e he k q)
        · simp [hw] at he

/-- Function-call processing in the Gemini loop passes only the Google key
down to the retriever. -/
theorem processGFunctionCalls_embed_key (env : Env) (tools : List ToolDef)
    (cid key db : String) (it : Nat) :
    ∀ calls, ∀ e ∈ (processGFunctionCalls env tools cid key db it calls).2.2, ∀ k q,
      e = Effect.embeddingCall k q → k = key := by
  intro calls
  induction calls with
  | nil => intro e he; simp [processGFunctionCalls] at he
  | cons fc rest ih =>
    intro e he k q heq
    cases hst : resultStatus (execute_tool env fc.name (fc.args.getD []) tools cid key db).1 with
    | exn err =>
      simp only [processGFunctionCalls, hst] at he
      exact execute_tool_embed_key env fc.name (fc.args.getD []) tools cid key db e he k q heq
    | ok st =>
      simp only [processGFunctionCalls, hst] at he
      cases List.mem_append.mp he with
      | inl h1 =>
        exact execute_tool_embed_key env fc.name (fc.args.getD []) tools cid key db e h1 k q heq
      | inr h2 =>
        exact ih e h2 k q heq

/-- Loop-level version: every embedding effect of the Gemini agent loop body
carries the Google key. -/
theorem gLoopGo_embed_key (env : Env) (model_name : String) (tools : List ToolDef)
    (decls : List GFuncDecl) (cid key db fe fl : String) :
    ∀ fuel msgs execs a b it,
      ∀ e ∈ (gLoopGo env model_name tools decls cid key db fe fl fuel msgs execs a b it).2,
        ∀ k q, e = Effect.embeddingCall k q → k = key := by
  intro fuel
  induction fuel with
  | zero => intro msgs execs a b it e he; simp [gLoopGo] at he
  | succ n ih =>
    intro msgs execs a b it e he k q heq
    cases hr : env.geminiGen msgs decls with
    | exn msg =>
      simp only [gLoopGo, hr] at he
      simp at he
      rw [he] at heq
      exact absurd heq (by simp)
    | ok r =>
      by_cases hfc : r.function_calls.isEmpty = true
      · simp only [gLoopGo, hr, hfc, Bool.not_true, Bool.false_eq_true, if_false] at he
        simp at he
        rw [he] at heq
        exact absurd heq (by simp)
      · simp only [Bool.not_eq_true] at hfc
        cases hst : (processGFunctionCalls env tools cid key db (it + 1) r.function_calls).1 with
        | exn err =>
          simp only [gLoopGo, hr, hfc, Bool.not_false, if_true, hst] at he
          cases he with
          | head => exact absurd heq (by simp)
          | tail _ h1 =>
            exact processGFunctionCalls_embed_key env tools cid key db (it + 1)
              r.function_calls e h1 k q heq
        | ok parts =>
          simp only [gLoopGo, hr, hfc, Bool.not_false, if_true, hst] at he
          cases he with
          | head => exact absurd heq (by simp)
          | tail _ h1 =>
            cases List.mem_append.mp h1 with
            | inl h2 =>
              exact processGFunctionCalls_embed_key env tools cid key db (it + 1)
                r.function_calls e h2 k q heq
            | inr h3 =>
              exact ih _ _ _ _ _ e h3 k q heq

/-- C10 — Every invocation of the built-in `search_knowledge_base` tool
originating inside the content/candidate-style (Gemini) agent loop passes
the GOOGLE API key down to the Knowledge Retriever in the OpenAI-key
parameter position: every embedding call in the effect trace of the loop carries
the Google key as its credential. -/
theorem C10_gemini_rag_credential (env : Env) (model_name sys um : String)
    (hist : List GContent) (tools : List ToolDef) (cid : String) (temp : Rat)
    (google_api_key db fe fl : String) (n : Nat) :
    ∀ e ∈ (execute_agent_loop_gemini env model_name sys um hist tools cid temp
        google_api_key db fe fl n).2,
      ∀ k q, e = Effect.embeddingCall k q → k = google_api_key := by
  intro e he k q heq
  rw [execute_agent_loop_gemini] at he
  exact gLoopGo_embed_key env model_name tools _ cid google_api_key db fe fl n _ [] 0 0 0
    e he k q heq

/-- Witness for C10: a run in which the built-in search actually fires; the
recorded embedding credential is the Google key. -/
theorem C10_gemini_rag_credential_witness : ("google-key" : String) = "google-key" :=
  C10_gemini_rag_credential ragCallGeminiEnv "gemini-pro" "sys" "hello" [] [] "cb" 1
    "google-key" "db" "E" "L" 5
    (Effect.embeddingCall "google-key" "q")
    (by
      have h : (execute_agent_loop_gemini ragCallGeminiEnv "gemini-pro" "sys" "hello" [] []
          "cb" 1 "google-key" "db" "E" "L" 5).2 =
          [Effect.providerCall "google", Effect.embeddingCall "google-key" "q",
           Effect.providerCall "google"] := rfl
      rw [h]
      exact List.mem_cons_of_mem _ (List.mem_cons_self _ _))
    "google-key" "q" rfl

/-- C5 (counterexample) — An exception raised in the knowledge-search
execution path (the embedding call) does NOT produce a result dictionary
containing an error string: the built-in search absorbs it into a
`success`-shaped empty result whose `error` key is absent. -/
theorem C5_counterexample :
    (execute_tool ragExnEnv "search_knowledge_base" [] [] "cb" "k" "db").1 =
      Json.obj [("success", Json.bool true), ("results", Json.arr []),
        ("message", Json.str "No relevant information found in knowledge base.")] ∧
    ((execute_tool ragExnEnv "search_knowledge_base" [] [] "cb" "k" "db").1).get "error" =
      Json.null :=
  ⟨rfl, rfl⟩

example :
    (execute_agent_loop_openai twoOneEnv "gpt-4o" [OAMessage.raw "user" "hi"] [] "cb" 1 "k"
        "db" 5).1.tool_executions.length = 3 ∧
    (execute_agent_loop_openai twoOneEnv "gpt-4o" [OAMessage.raw "user" "hi"] [] "cb" 1 "k"
        "db" 5).1.usage_info.tool_calls = some 3 ∧
    (execute_agent_loop_openai twoOneEnv "gpt-4o" [OAMessage.raw "user" "hi"] [] "cb" 1 "k"
        "db" 5).1.usage_info.iterations = some 3 :=
  ⟨rfl, rfl, rfl⟩

end LLMChatbot
